import Mathlib

/-!
Verification development for the document extraction / classification /
mapping pipeline of the immi-app backend
(`app/services/document_extraction.py`, `ai_document_extraction.py`,
`document_data_mapper.py`, `document.py`).

Python text values are modelled as `List Char` (the character sequence of
the string); Python `datetime.date` values as `PyDate`; dynamically typed
field values (`str` or `date`) as `PyVal`; `None` as `Option.none`.
Regular-expression calls of the source are modelled by a small backtracking
matcher (`rxm`) over an explicit syntax `Rx`, with Python `re` semantics
(leftmost match position, alternatives tried left to right, greedy
quantifiers with backtracking); every quantifier appearing in the source's
patterns ranges over a single-character class, which `Rx.rep` reflects.
-/

/-! ## Basic character and string helpers (ASCII, as the source's data is) -/

def lowerChar (c : Char) : Char :=
  if 'A' ≤ c && c ≤ 'Z' then Char.ofNat (c.toNat + 32) else c

def upperChar (c : Char) : Char :=
  if 'a' ≤ c && c ≤ 'z' then Char.ofNat (c.toNat - 32) else c

def lowerL (s : List Char) : List Char := s.map lowerChar

def upperL (s : List Char) : List Char := s.map upperChar

def ofStr (s : String) : List Char := s.data

def strOf (l : List Char) : String := String.mk l

def lowerS (s : String) : String := strOf (lowerL (ofStr s))

def upperS (s : String) : String := strOf (upperL (ofStr s))

/-- Python truthiness test for a string: empty strings are falsy.
(Defined on the character data, which keeps symbolic reasoning direct.) -/
def strIsEmpty (s : String) : Bool := s.data.isEmpty

/-- Python's whitespace set for `\s` and `str.strip()`:
space, tab, newline, carriage return, vertical tab, form feed. -/
def isSpaceChar (c : Char) : Bool :=
  c == ' ' || c == '\t' || c == '\n' || c == '\r' || c == '\x0b' || c == '\x0c'

def isDigitChar (c : Char) : Bool := '0' ≤ c && c ≤ '9'

/-- Word character for `\b`: `[A-Za-z0-9_]`. -/
def isWordChar (c : Char) : Bool :=
  ('a' ≤ c && c ≤ 'z') || ('A' ≤ c && c ≤ 'Z') || isDigitChar c || c == '_'

/-- `pat in s` for Python strings: substring containment. -/
def isSubstr (pat : List Char) : List Char → Bool
  | [] => pat.isEmpty
  | c :: t => pat.isPrefixOf (c :: t) || isSubstr pat t

/-- Python `str.isdigit()` restricted to ASCII: nonempty and all digits. -/
def allDigits (l : List Char) : Bool := !l.isEmpty && l.all isDigitChar

/-- Python `int(...)` on a digit string. -/
def natOf (l : List Char) : Nat := l.foldl (fun a c => 10 * a + (c.toNat - 48)) 0

/-- Python `str.strip()`. -/
def pyStrip (l : List Char) : List Char :=
  ((l.dropWhile isSpaceChar).reverse.dropWhile isSpaceChar).reverse

/-- Python `re.sub(r'\s+', ' ', s)`: collapse each whitespace run to one
space (the flag records being inside a whitespace run). -/
def collapseWsAux : Bool → List Char → List Char
  | _, [] => []
  | inWs, c :: t =>
    if isSpaceChar c then
      if inWs then collapseWsAux true t else ' ' :: collapseWsAux true t
    else c :: collapseWsAux false t

def collapseWs (l : List Char) : List Char := collapseWsAux false l

/-- Python `str.endswith`. -/
def endsWithS (s suf : String) : Bool := suf.data.isSuffixOf s.data

/-! ## Calendar dates (`datetime.date`) -/

structure PyDate where
  year : Nat
  month : Nat
  day : Nat
deriving DecidableEq, Repr

def isLeapYear (y : Nat) : Bool := (y % 4 == 0 && y % 100 != 0) || y % 400 == 0

def daysInMonth (y m : Nat) : Nat :=
  if m == 2 then (if isLeapYear y then 29 else 28)
  else if m == 4 || m == 6 || m == 9 || m == 11 then 30
  else 31

/-- The `date(year, month, day)` constructor: `some` on a valid calendar
date (as Python accepts: year 1..9999), `none` where Python raises
`ValueError`. -/
def mkDate (y m d : Nat) : Option PyDate :=
  if 1 ≤ y && y ≤ 9999 && 1 ≤ m && m ≤ 12 && 1 ≤ d && d ≤ daysInMonth y m then
    some ⟨y, m, d⟩
  else none

/-- Python `date` comparison `a < b` (lexicographic on year, month, day). -/
def PyDate.ltb (a b : PyDate) : Bool :=
  a.year < b.year ||
    (a.year == b.year && (a.month < b.month ||
      (a.month == b.month && a.day < b.day)))

def pad2 (n : Nat) : String := if n < 10 then "0" ++ toString n else toString n

def pad4 (n : Nat) : String :=
  if n < 10 then "000" ++ toString n
  else if n < 100 then "00" ++ toString n
  else if n < 1000 then "0" ++ toString n
  else toString n

/-- Python `date.isoformat()`. -/
def isoformat (d : PyDate) : String :=
  pad4 d.year ++ "-" ++ pad2 d.month ++ "-" ++ pad2 d.day

/-- Split a character list at `-` separators. -/
def splitDash (l : List Char) : List (List Char) :=
  go l [] where
  go : List Char → List Char → List (List Char)
    | [], acc => [acc.reverse]
    | c :: t, acc => if c == '-' then acc.reverse :: go t [] else go t (c :: acc)

/-- `datetime.strptime(s, '%Y-%m-%d').date()`: `%Y` is exactly four digits,
`%m` one or two digits valued 1..12, `%d` one or two digits valued 1..31,
the whole string must be consumed, and the resulting `date(...)`
construction validates the day against the month (else `ValueError`,
modelled as `none`). -/
def strptimeIsoDate (s : String) : Option PyDate :=
  match splitDash (ofStr s) with
  | [ys, ms, ds] =>
    if allDigits ys && ys.length == 4 &&
        allDigits ms && ms.length ≤ 2 && 1 ≤ natOf ms && natOf ms ≤ 12 &&
        allDigits ds && ds.length ≤ 2 && 1 ≤ natOf ds && natOf ds ≤ 31 then
      mkDate (natOf ys) (natOf ms) (natOf ds)
    else none
  | _ => none

/-! ## A small regex engine mirroring the `re` calls of the source -/

/-- One atom of a character class. -/
inductive CAtom where
  | one (c : Char)
  | range (lo hi : Char)
  | digitA
  | spaceA
deriving DecidableEq, Repr

/-- Whether atom `a` matches character `c`; `ci` is `re.IGNORECASE`. -/
def CAtom.mch (ci : Bool) (a : CAtom) (c : Char) : Bool :=
  match a with
  | .one ch => c == ch || (ci && lowerChar c == lowerChar ch)
  | .range lo hi =>
    (lo ≤ c && c ≤ hi) ||
      (ci && ((lo ≤ lowerChar c && lowerChar c ≤ hi) ||
              (lo ≤ upperChar c && upperChar c ≤ hi)))
  | .digitA => isDigitChar c
  | .spaceA => isSpaceChar c

/-- A character class: a possibly negated list of atoms. -/
structure CClass where
  neg : Bool
  atoms : List CAtom
deriving DecidableEq, Repr

def CClass.mch (ci : Bool) (k : CClass) (c : Char) : Bool :=
  let m := k.atoms.any (fun a => a.mch ci c)
  if k.neg then !m else m

/-- Regex syntax.  Quantification (`rep`) is over a single-character class,
which covers every quantifier in the source's patterns.  `grp` is a
numbered capturing group and `bnd` is the word boundary `\b`. -/
inductive Rx where
  | eps
  | cls (k : CClass)
  | rep (k : CClass) (lo : Nat) (hi : Option Nat)
  | seq (a b : Rx)
  | alt (a b : Rx)
  | grp (n : Nat) (r : Rx)
  | bnd
deriving Repr

/-- Length of the maximal run of characters of class `k` at the head. -/
def runLen (ci : Bool) (k : CClass) : List Char → Nat
  | [] => 0
  | c :: t => if k.mch ci c then runLen ci k t + 1 else 0

/-- Captured groups: group number paired with the captured characters. -/
def Grps := List (Nat × List Char)

/-- Greedy repetition: try consuming `i` characters, backing off to `lo`.
`k` receives the last consumed character (for `\b`) and the rest. -/
def tryRep {α : Type} (prev : Option Char) (s : List Char) (g : Grps)
    (k : Option Char → List Char → Grps → Option α) (lo : Nat) :
    Nat → Option α
  | 0 =>
    -- i = 0: nothing consumed; 0 ≤ lo always, so a failure is final
    k prev s g
  | i + 1 =>
    let consumed := s.take (i + 1)
    match k consumed.getLast? (s.drop (i + 1)) g with
    | some r => some r
    | none => if i + 1 ≤ lo then none else tryRep prev s g k lo i

/-- The backtracking matcher, in continuation-passing style.  `prev` is
the character just before the current position (for `\b`).  It yields the
first success in Python's backtracking order. -/
def rxm {α : Type} (ci : Bool) :
    Rx → Option Char → List Char → Grps →
    (Option Char → List Char → Grps → Option α) → Option α
  | .eps, prev, s, g, k => k prev s g
  | .cls kl, _prev, s, g, k =>
    match s with
    | [] => none
    | c :: t => if kl.mch ci c then k (some c) t g else none
  | .rep kl lo hi, prev, s, g, k =>
    let maxRun := runLen ci kl s
    let top := match hi with | none => maxRun | some h => min h maxRun
    if top < lo then none else tryRep prev s g k lo top
  | .seq a b, prev, s, g, k =>
    rxm ci a prev s g (fun p' s' g' => rxm ci b p' s' g' k)
  | .alt a b, prev, s, g, k =>
    match rxm ci a prev s g k with
    | some r => some r
    | none => rxm ci b prev s g k
  | .grp n r, prev, s, g, k =>
    rxm ci r prev s g
      (fun p' s' g' => k p' s' ((n, s.take (s.length - s'.length)) :: g'))
  | .bnd, prev, s, g, k =>
    let pw := match prev with | some c => isWordChar c | none => false
    let nw := match s.head? with | some c => isWordChar c | none => false
    if pw != nw then k prev s g else none

/-- `re.search`: try each start position left to right; on success return
the matched text and the captured groups. -/
def rxSearchAux (ci : Bool) (r : Rx) :
    Option Char → List Char → Option (List Char × Grps)
  | prev, [] =>
    -- on empty input any successful match is empty
    match rxm ci r prev [] [] (fun _ rest g => some (rest, g)) with
    | some (_, g) => some ([], g)
    | none => none
  | prev, c :: t =>
    match rxm ci r prev (c :: t) [] (fun _ rest g => some (rest, g)) with
    | some (rest, g) => some ((c :: t).take ((c :: t).length - rest.length), g)
    | none => rxSearchAux ci r (some c) t

def rxSearch (ci : Bool) (r : Rx) (s : List Char) : Option (List Char × Grps) :=
  rxSearchAux ci r none s

/-- `match.group(n)`: the captured text of group `n` (last capture wins,
which for the source's patterns — each group capturing at most once — is
the unique capture).  Defaults to `[]`, unreachable for matched groups. -/
def grpGet (g : Grps) (n : Nat) : List Char :=
  match g.find? (fun p => p.1 == n) with
  | some p => p.2
  | none => []

/-! ### Combinators for writing the source's patterns -/

def rLit (c : Char) : Rx := .cls ⟨false, [.one c]⟩

/-- A literal string, character by character. -/
def rStr (s : String) : Rx := s.data.foldr (fun c a => .seq (rLit c) a) .eps

def rSeq (l : List Rx) : Rx := l.foldr .seq .eps

def rAlt1 (a : Rx) (l : List Rx) : Rx := l.foldl .alt a

def kSp : CClass := ⟨false, [.spaceA]⟩
def kDig : CClass := ⟨false, [.digitA]⟩
def kUp : CClass := ⟨false, [.range 'A' 'Z']⟩
def kNotNl : CClass := ⟨true, [.one '\n']⟩

def rPlus (k : CClass) : Rx := .rep k 1 none
def rStar (k : CClass) : Rx := .rep k 0 none
def rOpt (k : CClass) : Rx := .rep k 0 (some 1)
def rN (k : CClass) (n : Nat) : Rx := .rep k n (some n)
def rBet (k : CClass) (lo hi : Nat) : Rx := .rep k lo (some hi)

/-! ## The `ExtractedData` record (`document_extraction.py`, dataclass) -/

/-- A dynamically-typed field value as it appears in the Python record:
either a string or a `date` object.  (`annot` models the source's
annotation field for visas.) -/
inductive PyVal where
  | str (s : String)
  | date (d : PyDate)
deriving DecidableEq, Repr

/-- The `ExtractedData` dataclass.  Every optional field defaults to
`None`; `__post_init__` makes `confidence_scores` an empty dict and
`warnings` an empty list.  Confidence values (floats in the source) are
kept abstract as `Nat` — no modelled code path computes with them. -/
structure ExtractedData where
  document_type : Option PyVal := none
  document_number : Option PyVal := none
  full_name : Option PyVal := none
  first_name : Option PyVal := none
  last_name : Option PyVal := none
  date_of_birth : Option PyVal := none
  nationality : Option PyVal := none
  passport_number : Option PyVal := none
  issue_date : Option PyVal := none
  expiry_date : Option PyVal := none
  issuing_authority : Option PyVal := none
  place_of_issue : Option PyVal := none
  gender : Option PyVal := none
  visa_type : Option PyVal := none
  visa_class : Option PyVal := none
  control_number : Option PyVal := none
  entries : Option PyVal := none
  annot : Option PyVal := none
  i94_number : Option PyVal := none
  admission_date : Option PyVal := none
  admit_until_date : Option PyVal := none
  class_of_admission : Option PyVal := none
  receipt_number : Option PyVal := none
  priority_date : Option PyVal := none
  notice_type : Option PyVal := none
  validity_from : Option PyVal := none
  validity_to : Option PyVal := none
  beneficiary_name : Option PyVal := none
  petitioner_name : Option PyVal := none
  uscis_number : Option PyVal := none
  category : Option PyVal := none
  card_number : Option PyVal := none
  confidence_scores : List (String × Nat) := []
  extracted_text : Option String := none
  warnings : List String := []
deriving DecidableEq, Repr

/-- Python truthiness of an optional field value: `None` and `""` are
falsy, any other string and every `date` object are truthy. -/
def pyTruthy : Option PyVal → Bool
  | none => false
  | some (.str s) => !(strIsEmpty s)
  | some (.date _) => true

/-- The merge loop's emptiness test `value is None or value == ""`
(only the empty string compares equal to `""`; a `date` never does). -/
def pyUnset : Option PyVal → Bool
  | none => true
  | some (.str s) => strIsEmpty s
  | some (.date _) => false

/-! ## Document-type classification (`_detect_document_type`) -/

/-- One entry of `self.document_keywords`: high-priority phrases,
medium-priority phrases, and regex patterns. -/
structure KwEntry where
  name : String
  high : List String
  med : List String
  pats : List Rx

/-- `r'passport\s+no[:\.\s]'` -/
def patPassportNo : Rx :=
  rSeq [rStr "passport", rPlus kSp, rStr "no", .cls ⟨false, [.one ':', .one '.', .spaceA]⟩]

/-- `r'nationality[:\s]+[A-Z]{2,3}'` -/
def patNationality : Rx :=
  rSeq [rStr "nationality", rPlus ⟨false, [.one ':', .spaceA]⟩, rBet kUp 2 3]

/-- `r'visa\s+type[:\s]'` -/
def patVisaType : Rx :=
  rSeq [rStr "visa", rPlus kSp, rStr "type", .cls ⟨false, [.one ':', .spaceA]⟩]

/-- `r'[A-Z]-?[0-9]{1,2}[A-Z]?\s+visa'` -/
def patClassVisa : Rx :=
  rSeq [.cls kUp, rOpt ⟨false, [.one '-']⟩, rBet kDig 1 2, rOpt kUp, rPlus kSp, rStr "visa"]

/-- `r'control\s+no[:\s]'` -/
def patControlNo : Rx :=
  rSeq [rStr "control", rPlus kSp, rStr "no", .cls ⟨false, [.one ':', .spaceA]⟩]

/-- `r'i-?94\s+number'` -/
def patI94Number : Rx :=
  rSeq [rLit 'i', rOpt ⟨false, [.one '-']⟩, rStr "94", rPlus kSp, rStr "number"]

/-- `r'admit\s+until'` -/
def patAdmitUntil : Rx := rSeq [rStr "admit", rPlus kSp, rStr "until"]

/-- `r'class\s+of\s+admission'` -/
def patClassOfAdmission : Rx :=
  rSeq [rStr "class", rPlus kSp, rStr "of", rPlus kSp, rStr "admission"]

/-- `r'[A-Z]{3}[0-9]{10}'` (receipt-number shape) -/
def patReceiptShape : Rx := rSeq [rN kUp 3, rN kDig 10]

/-- `r'receipt\s+number'` -/
def patReceiptNumber : Rx := rSeq [rStr "receipt", rPlus kSp, rStr "number"]

/-- `r'notice\s+type'` -/
def patNoticeType : Rx := rSeq [rStr "notice", rPlus kSp, rStr "type"]

/-- `r'uscis\s*#?[:\s]'` -/
def patUscis : Rx :=
  rSeq [rStr "uscis", rStar kSp, rOpt ⟨false, [.one '#']⟩, .cls ⟨false, [.one ':', .spaceA]⟩]

/-- `r'category[:\s]+[AC][0-9]{2}'` -/
def patCategory : Rx :=
  rSeq [rStr "category", rPlus ⟨false, [.one ':', .spaceA]⟩,
    .cls ⟨false, [.one 'A', .one 'C']⟩, rN kDig 2]

/-- `r'card\s+expires'` -/
def patCardExpires : Rx := rSeq [rStr "card", rPlus kSp, rStr "expires"]

/-- `r'dl\s+no[:\s]'` -/
def patDlNo : Rx :=
  rSeq [rStr "dl", rPlus kSp, rStr "no", .cls ⟨false, [.one ':', .spaceA]⟩]

/-- `r'license\s+number'` -/
def patLicenseNumber : Rx := rSeq [rStr "license", rPlus kSp, rStr "number"]

/-- `r'motor\s+vehicle'` -/
def patMotorVehicle : Rx := rSeq [rStr "motor", rPlus kSp, rStr "vehicle"]

/-- `r'resident\s+alien'` -/
def patResidentAlien : Rx := rSeq [rStr "resident", rPlus kSp, rStr "alien"]

/-- `r'permanent\s+resident'` -/
def patPermanentResident : Rx := rSeq [rStr "permanent", rPlus kSp, rStr "resident"]

/-- `self.document_keywords`, in source (dict insertion) order. -/
def documentKeywords : List KwEntry := [
  { name := "passport",
    high := ["passport number", "united states of america passport", "passport type"],
    med := ["passport", "passeport", "pasaporte"],
    pats := [patPassportNo, patNationality] },
  { name := "visa",
    high := ["nonimmigrant visa", "immigrant visa", "visa type", "foil number"],
    med := ["visa", "entry", "control number"],
    pats := [patVisaType, patClassVisa, patControlNo] },
  { name := "i94",
    high := ["i-94", "arrival/departure record", "admission number", "cbp.gov"],
    med := ["i94", "admitted until", "class of admission"],
    pats := [patI94Number, patAdmitUntil, patClassOfAdmission] },
  { name := "i797",
    high := ["notice of action", "i-797", "uscis", "receipt number"],
    med := ["i797", "approval notice", "petition"],
    pats := [patReceiptShape, patReceiptNumber, patNoticeType] },
  { name := "ead",
    high := ["employment authorization document", "work permit", "uscis#"],
    med := ["ead", "employment authorization", "work authorization"],
    pats := [patUscis, patCategory, patCardExpires] },
  { name := "drivers_license",
    high := ["driver license", "drivers license", "motor vehicle"],
    med := ["driving license", "dl no", "license number"],
    pats := [patDlNo, patLicenseNumber, patMotorVehicle] },
  { name := "green_card",
    high := ["permanent resident card", "green card", "lawful permanent resident"],
    med := ["resident alien", "permanent resident"],
    pats := [patResidentAlien, patPermanentResident, patCardExpires] }]

/-- The per-type score accumulation of `_detect_document_type`: +10 per
high-priority keyword contained in the lowercased text, +5 per
medium-priority keyword, +15 per pattern for which `re.search(pattern,
text_lower)` succeeds (searched, as in the source, against the lowercased
text without `re.IGNORECASE`). -/
def scoreOf (textLower : List Char) (kd : KwEntry) : Nat :=
  let s1 := kd.high.foldl (fun sc w => if isSubstr (ofStr w) textLower then sc + 10 else sc) 0
  let s2 := kd.med.foldl (fun sc w => if isSubstr (ofStr w) textLower then sc + 5 else sc) s1
  kd.pats.foldl (fun sc p => if (rxSearch false p textLower).isSome then sc + 15 else sc) s2

def nonImmigrationKeywords : List String :=
  ["blog post", "article", "substack", "newsletter", "tutorial",
   "engineering", "team", "project", "development", "software"]

/-- `max(scores, key=scores.get)` over the insertion-ordered dict: the
first entry attaining the maximal score (only a strictly greater score
displaces the running best). -/
def pickMax (p : String × Nat) (l : List (String × Nat)) : String × Nat :=
  l.foldl (fun best q => if q.2 > best.2 then q else best) p

/-- `_detect_document_type`. -/
def detect_document_type (text : List Char) : Option String :=
  let tl := lowerL text
  let scores := (documentKeywords.map (fun kd => (kd.name, scoreOf tl kd))).filter
    (fun p => 0 < p.2)
  match scores with
  | p :: rest => some (pickMax p rest).1
  | [] =>
    let cnt := nonImmigrationKeywords.countP (fun w => isSubstr (ofStr w) tl)
    if 3 ≤ cnt then some "other" else none

/-! ## Field extraction (`_extract_date`, `_parse_date_match`, names, per-type) -/

/-- The numeric date pattern: one-or-two digits, a slash-or-dash class,
one-or-two digits, a slash-or-dash class, two-to-four digits
(MM/DD/YYYY or MM-DD-YYYY). -/
def datePat1 : Rx :=
  rSeq [.grp 1 (rBet kDig 1 2), .cls ⟨false, [.one '/', .one '-']⟩,
    .grp 2 (rBet kDig 1 2), .cls ⟨false, [.one '/', .one '-']⟩,
    .grp 3 (rBet kDig 2 4)]

/-- `(JAN|FEB|MAR|APR|MAY|JUN|JUL|AUG|SEP|OCT|NOV|DEC)` -/
def monthAlt : Rx :=
  rAlt1 (rStr "JAN")
    [rStr "FEB", rStr "MAR", rStr "APR", rStr "MAY", rStr "JUN",
     rStr "JUL", rStr "AUG", rStr "SEP", rStr "OCT", rStr "NOV", rStr "DEC"]

/-- `r'(\d{1,2})\s+(JAN|...|DEC)\s+(\d{2,4})'` (DD MMM YYYY). -/
def datePat2 : Rx :=
  rSeq [.grp 1 (rBet kDig 1 2), rPlus kSp, .grp 2 monthAlt, rPlus kSp,
    .grp 3 (rBet kDig 2 4)]

/-- `r'(JAN|...|DEC)\s+(\d{1,2}),?\s+(\d{2,4})'` (MMM DD, YYYY). -/
def datePat3 : Rx :=
  rSeq [.grp 1 monthAlt, rPlus kSp, .grp 2 (rBet kDig 1 2),
    rOpt ⟨false, [.one ',']⟩, rPlus kSp, .grp 3 (rBet kDig 2 4)]

def monthTable : List (String × Nat) :=
  [("JAN", 1), ("FEB", 2), ("MAR", 3), ("APR", 4), ("MAY", 5), ("JUN", 6),
   ("JUL", 7), ("AUG", 8), ("SEP", 9), ("OCT", 10), ("NOV", 11), ("DEC", 12)]

/-- Two-digit year pivot of `_parse_date_match`:
`if year < 100: year += 2000 if year < 30 else 1900`. -/
def pivotYear (y : Nat) : Nat :=
  if y < 100 then (if y < 30 then y + 2000 else y + 1900) else y

/-- `_parse_date_match`, on the three captured group texts.  `none` models
every exception path caught by the caller's bare `except`:
`int()` on a non-numeric group (notably `int(groups[1])` when a
`DD MMM YYYY` match puts a month name in group 2 while group 1 is numeric)
and an invalid `date(...)` construction. -/
def parse_date_match (g1 g2 g3 : List Char) : Option PyDate :=
  if allDigits g1 then
    -- numeric branch: month, day, year = int(g1), int(g2), int(g3);
    -- int(g2) raises ValueError when g2 is a month name
    if allDigits g2 && allDigits g3 then
      mkDate (pivotYear (natOf g3)) (natOf g1) (natOf g2)
    else none
  else
    -- month-name branch
    if allDigits g2 then
      -- MMM DD YYYY: month = months.get(g1.upper(), 1)
      if allDigits g3 then
        mkDate (pivotYear (natOf g3)) (((monthTable).lookup (strOf (upperL g1))).getD 1)
          (natOf g2)
      else none
    else
      -- DD MMM YYYY sub-branch: day = int(groups[0]) raises ValueError,
      -- since groups[0] is not numeric on this path
      none

/-- The inner pattern loop of `_extract_date` over one keyword window:
try each date pattern in order; on a match whose parse raises, continue
with the next pattern. -/
def tryDatePats (seg : List Char) : List Rx → Option PyDate
  | [] => none
  | p :: ps =>
    match rxSearch true p seg with
    | none => tryDatePats seg ps
    | some (_, g) =>
      match parse_date_match (grpGet g 1) (grpGet g 2) (grpGet g 3) with
      | some d => some d
      | none => tryDatePats seg ps

/-- `_extract_date`: for each keyword, search `f'{keyword}[^\n]*'`
case-insensitively; inside the matched window try the three date patterns
(also case-insensitively); fall through to the next keyword otherwise. -/
def extract_date (text : List Char) : List String → Option PyDate
  | [] => none
  | kw :: rest =>
    match rxSearch true (rSeq [rStr kw, rStar kNotNl]) text with
    | none => extract_date text rest
    | some (seg, _) =>
      match tryDatePats seg [datePat1, datePat2, datePat3] with
      | some d => some d
      | none => extract_date text rest

/-- `_extract_name`: search `f'{kw}[:\s]+([A-Z][A-Z\s]+)'` (IGNORECASE)
for each name keyword; strip and whitespace-collapse the captured group;
accept when `3 < len < 100`. -/
def extract_name (text : List Char) : Option String :=
  go ["name", "surname", "given name", "family name"] where
  go : List String → Option String
    | [] => none
    | kw :: rest =>
      match rxSearch true (rSeq [rStr kw, rPlus ⟨false, [.one ':', .spaceA]⟩,
          .grp 1 (rSeq [.cls kUp, rPlus ⟨false, [.range 'A' 'Z', .spaceA]⟩])]) text with
      | none => go rest
      | some (_, g) =>
        let nm := collapseWs (pyStrip (grpGet g 1))
        if 3 < nm.length && nm.length < 100 then some (strOf nm) else go rest

/-- `_extract_field` (used for passport nationality): like `_extract_name`
with the length guard `2 < len < 100`. -/
def extract_field (text : List Char) (kws : List String) : Option String :=
  go kws where
  go : List String → Option String
    | [] => none
    | kw :: rest =>
      match rxSearch true (rSeq [rStr kw, rPlus ⟨false, [.one ':', .spaceA]⟩,
          .grp 1 (rSeq [.cls kUp, rPlus ⟨false, [.range 'A' 'Z', .spaceA]⟩])]) text with
      | none => go rest
      | some (_, g) =>
        let v := collapseWs (pyStrip (grpGet g 1))
        if 2 < v.length && v.length < 100 then some (strOf v) else go rest

/-- `r'[A-Z][0-9]{8}|[A-Z]{2}[0-9]{7}'` (passport number shapes). -/
def patPassportNumber : Rx :=
  .alt (rSeq [.cls kUp, rN kDig 8]) (rSeq [rN kUp 2, rN kDig 7])

/-- `r'\b(M|F|MALE|FEMALE)\b'` (searched on `text.upper()`). -/
def patGender : Rx :=
  rSeq [.bnd, .grp 1 (rAlt1 (rStr "M") [rStr "F", rStr "MALE", rStr "FEMALE"]), .bnd]

/-- `_extract_passport_data`. -/
def extract_passport_data (text : List Char) (r0 : ExtractedData) : ExtractedData :=
  let r := match rxSearch false patPassportNumber text with
    | some (m, _) =>
      { r0 with passport_number := some (.str (strOf m)),
                document_number := some (.str (strOf m)) }
    | none => r0
  let r := { r with
    issue_date := (extract_date text ["date of issue", "issued"]).map PyVal.date,
    expiry_date := (extract_date text ["date of expiry", "expires", "expiration"]).map PyVal.date,
    date_of_birth := (extract_date text ["date of birth", "dob", "born"]).map PyVal.date }
  let r := match extract_name text with
    | some nm =>
      let parts := (strOf (collapseWs (pyStrip (ofStr nm)))).splitOn " "
      -- full_name.split() on an already-collapsed name
      let r := { r with full_name := some (.str nm) }
      if 2 ≤ parts.length then
        { r with first_name := some (.str (parts.headD "")),
                 last_name := some (.str (String.intercalate " " parts.tail)) }
      else r
    | none => r
  let r := match extract_field text ["nationality", "citizen"] with
    | some v => { r with nationality := some (.str v) }
    | none => r
  match rxSearch false patGender (upperL text) with
  | some (m, _) => { r with gender := some (.str (strOf (m.take 1))) }
  | none => r

/-- `r'[0-9]{8,12}'` (visa control number shape). -/
def patControlDigits : Rx := rBet kDig 8 12

/-- `_extract_visa_data`. -/
def extract_visa_data (text : List Char) (r0 : ExtractedData) : ExtractedData :=
  -- control: search 'control[^\n]*[0-9]{8,12}' (IGNORECASE), then take the
  -- first digit run of that shape inside the matched text (findall()[0])
  let r := match rxSearch true (rSeq [rStr "control", rStar kNotNl, patControlDigits]) text with
    | some (m, _) =>
      match rxSearch false patControlDigits m with
      | some (num, _) =>
        { r0 with control_number := some (.str (strOf num)),
                  document_number := some (.str (strOf num)) }
      | none => r0
    | none => r0
  -- visa type: '(?:visa type|class)[^\n]*([A-Z]-?[0-9]{1,2}[A-Z]?)' (IGNORECASE)
  let r := match rxSearch true (rSeq [.alt (rStr "visa type") (rStr "class"), rStar kNotNl,
      .grp 1 (rSeq [.cls kUp, rOpt ⟨false, [.one '-']⟩, rBet kDig 1 2, rOpt kUp])]) text with
    | some (_, g) =>
      let v := strOf (grpGet g 1)
      { r with visa_type := some (.str v), visa_class := some (.str v) }
    | none => r
  let r := { r with
    issue_date := (extract_date text ["issue date", "issued"]).map PyVal.date,
    expiry_date := (extract_date text ["expiration date", "expires"]).map PyVal.date }
  -- entries: '(single|multiple|multi)\s*entr' (IGNORECASE), group(1).upper()
  let r := match rxSearch true (rSeq [.grp 1 (rAlt1 (rStr "single") [rStr "multiple", rStr "multi"]),
      rStar kSp, rStr "entr"]) text with
    | some (_, g) => { r with entries := some (.str (strOf (upperL (grpGet g 1)))) }
    | none => r
  match extract_name text with
  | some nm => { r with full_name := some (.str nm) }
  | none => r

/-- `r'[0-9]{11}'` (I-94 number shape). -/
def patI94Digits : Rx := rN kDig 11

/-- `_extract_i94_data`. -/
def extract_i94_data (text : List Char) (r0 : ExtractedData) : ExtractedData :=
  -- '(?:i-94|admission)[^\n]*([0-9]{11})' (IGNORECASE)
  let r := match rxSearch true (rSeq [.alt (rStr "i-94") (rStr "admission"), rStar kNotNl,
      .grp 1 patI94Digits]) text with
    | some (_, g) =>
      let v := strOf (grpGet g 1)
      { r0 with i94_number := some (.str v), document_number := some (.str v) }
    | none => r0
  let r := { r with
    admission_date := (extract_date text ["admission date", "admitted"]).map PyVal.date,
    admit_until_date := (extract_date text ["admit until", "admitted until"]).map PyVal.date }
  -- 'class of admission[^\n]*([A-Z]-?[0-9]{1,2}[A-Z]?)' (IGNORECASE)
  match rxSearch true (rSeq [rStr "class of admission", rStar kNotNl,
      .grp 1 (rSeq [.cls kUp, rOpt ⟨false, [.one '-']⟩, rBet kDig 1 2, rOpt kUp])]) text with
  | some (_, g) => { r with class_of_admission := some (.str (strOf (grpGet g 1))) }
  | none => r

/-- `_extract_i797_data`. -/
def extract_i797_data (text : List Char) (r0 : ExtractedData) : ExtractedData :=
  -- receipt: '[A-Z]{3}[0-9]{10}' searched case-sensitively on the raw text
  let r := match rxSearch false patReceiptShape text with
    | some (m, _) =>
      { r0 with receipt_number := some (.str (strOf m)),
                document_number := some (.str (strOf m)) }
    | none => r0
  -- 'notice of (approval|receipt|rejection)' (IGNORECASE), group(1).upper()
  let r := match rxSearch true (rSeq [rStr "notice of ",
      .grp 1 (rAlt1 (rStr "approval") [rStr "receipt", rStr "rejection"])]) text with
    | some (_, g) => { r with notice_type := some (.str (strOf (upperL (grpGet g 1)))) }
    | none => r
  let r := { r with
    validity_from := (extract_date text ["valid from", "validity from"]).map PyVal.date,
    validity_to := (extract_date text ["valid to", "validity to", "valid until"]).map PyVal.date }
  -- 'beneficiary[:\s]+([A-Z\s,]+)' (IGNORECASE), group(1).strip()
  let r := match rxSearch true (rSeq [rStr "beneficiary", rPlus ⟨false, [.one ':', .spaceA]⟩,
      .grp 1 (rPlus ⟨false, [.range 'A' 'Z', .spaceA, .one ',']⟩)]) text with
    | some (_, g) => { r with beneficiary_name := some (.str (strOf (pyStrip (grpGet g 1)))) }
    | none => r
  match rxSearch true (rSeq [rStr "petitioner", rPlus ⟨false, [.one ':', .spaceA]⟩,
      .grp 1 (rPlus ⟨false, [.range 'A' 'Z', .spaceA, .one ',']⟩)]) text with
  | some (_, g) => { r with petitioner_name := some (.str (strOf (pyStrip (grpGet g 1)))) }
  | none => r

/-- `r'[0-9]{3}-[0-9]{3}-[0-9]{3}'` (USCIS number). -/
def patUscisDigits : Rx :=
  rSeq [rN kDig 3, rLit '-', rN kDig 3, rLit '-', rN kDig 3]

/-- `_extract_ead_data`. -/
def extract_ead_data (text : List Char) (r0 : ExtractedData) : ExtractedData :=
  let r := match rxSearch false patUscisDigits text with
    | some (m, _) => { r0 with uscis_number := some (.str (strOf m)) }
    | none => r0
  let r := match rxSearch false patReceiptShape text with
    | some (m, _) =>
      { r with card_number := some (.str (strOf m)),
               document_number := some (.str (strOf m)) }
    | none => r
  -- '\(([ac]\d{1,2}[a-z]?)\)' (IGNORECASE), group(1).upper()
  let r := match rxSearch true (rSeq [rLit '(',
      .grp 1 (rSeq [.cls ⟨false, [.one 'a', .one 'c']⟩, rBet kDig 1 2,
        rOpt ⟨false, [.range 'a' 'z']⟩]), rLit ')']) text with
    | some (_, g) => { r with category := some (.str (strOf (upperL (grpGet g 1)))) }
    | none => r
  { r with
    issue_date := (extract_date text ["card expires", "valid from"]).map PyVal.date,
    expiry_date := (extract_date text ["card expires", "exp date"]).map PyVal.date }

/-- `_extract_generic_data`. -/
def extract_generic_data (text : List Char) (r0 : ExtractedData) : ExtractedData :=
  let r := { r0 with
    full_name := (extract_name text).map PyVal.str,
    issue_date := (extract_date text ["issue", "issued"]).map PyVal.date,
    expiry_date := (extract_date text ["expir", "valid until"]).map PyVal.date }
  -- first matching document-number pattern wins
  let pats := [patReceiptShape, rSeq [.cls kUp, rN kDig 8], patI94Digits]
  match pats.firstM (fun p => (rxSearch false p text).map Prod.fst) with
  | some m => { r with document_number := some (.str (strOf m)) }
  | none => r

/-- `_extract_structured_data`: set `document_type`, dispatch per type. -/
def extract_structured_data (text : List Char) (docType : Option String) : ExtractedData :=
  let r : ExtractedData := { document_type := docType.map PyVal.str }
  if docType = some "passport" then extract_passport_data text r
  else if docType = some "visa" then extract_visa_data text r
  else if docType = some "i94" then extract_i94_data text r
  else if docType = some "i797" then extract_i797_data text r
  else if docType = some "ead" then extract_ead_data text r
  else extract_generic_data text r

/-! ## Vision-response parsing (`_parse_ai_response`) and merging
(`_merge_results`) of `ai_document_extraction.py` -/

/-- The JSON object of the AI response, restricted to the fields the
parser reads.  Each value is `none` when absent or JSON `null`
(`if json_field in data and data[json_field]` also skips falsy values,
handled in the parser). -/
structure AiJson where
  document_type : Option String := none
  document_number : Option String := none
  full_name : Option String := none
  first_name : Option String := none
  last_name : Option String := none
  nationality : Option String := none
  passport_number : Option String := none
  issuing_authority : Option String := none
  place_of_issue : Option String := none
  gender : Option String := none
  visa_type : Option String := none
  visa_class : Option String := none
  control_number : Option String := none
  entries : Option String := none
  annot : Option String := none
  i94_number : Option String := none
  class_of_admission : Option String := none
  receipt_number : Option String := none
  notice_type : Option String := none
  beneficiary_name : Option String := none
  petitioner_name : Option String := none
  uscis_number : Option String := none
  category : Option String := none
  card_number : Option String := none
  date_of_birth : Option String := none
  issue_date : Option String := none
  expiry_date : Option String := none
  admission_date : Option String := none
  admit_until_date : Option String := none
  priority_date : Option String := none
  validity_from : Option String := none
  validity_to : Option String := none
  confidence_scores : Option (List (String × Nat)) := none
deriving DecidableEq, Repr

/-- The simple-field copy step: set the attribute when the JSON value is
present and truthy (a non-empty string). -/
def aiCopy (v : Option String) (old : Option PyVal) : Option PyVal :=
  match v with
  | some s => if strIsEmpty s then old else some (.str s)
  | none => old

/-- One date field of the `_parse_ai_response` date loop: on `"D/S"` add
the Duration-of-Status warning and leave the date unset; otherwise
`strptime` the value, setting the date on success and adding a
could-not-parse warning on failure (the bare `except`). -/
def aiDate (fieldName : String) (v : Option String) :
    Option PyVal × List String :=
  match v with
  | some s =>
    if strIsEmpty s then (none, [])
    else if s = "D/S" then
      (none, [fieldName ++ ": Duration of Status (D/S)"])
    else
      match strptimeIsoDate s with
      | some d => (some (.date d), [])
      | none => (none, ["Could not parse date: " ++ fieldName ++ "=" ++ s])
  | none => (none, [])

/-- `_parse_ai_response`: build a fresh `ExtractedData` from the JSON
fields, then process the eight date fields in the source's order,
accumulating warnings. -/
def parse_ai_response (data : AiJson) : ExtractedData :=
  let r : ExtractedData := {
    document_type := aiCopy data.document_type none,
    document_number := aiCopy data.document_number none,
    full_name := aiCopy data.full_name none,
    first_name := aiCopy data.first_name none,
    last_name := aiCopy data.last_name none,
    nationality := aiCopy data.nationality none,
    passport_number := aiCopy data.passport_number none,
    issuing_authority := aiCopy data.issuing_authority none,
    place_of_issue := aiCopy data.place_of_issue none,
    gender := aiCopy data.gender none,
    visa_type := aiCopy data.visa_type none,
    visa_class := aiCopy data.visa_class none,
    control_number := aiCopy data.control_number none,
    entries := aiCopy data.entries none,
    annot := aiCopy data.annot none,
    i94_number := aiCopy data.i94_number none,
    class_of_admission := aiCopy data.class_of_admission none,
    receipt_number := aiCopy data.receipt_number none,
    notice_type := aiCopy data.notice_type none,
    beneficiary_name := aiCopy data.beneficiary_name none,
    petitioner_name := aiCopy data.petitioner_name none,
    uscis_number := aiCopy data.uscis_number none,
    category := aiCopy data.category none,
    card_number := aiCopy data.card_number none }
  let d1 := aiDate "date_of_birth" data.date_of_birth
  let d2 := aiDate "issue_date" data.issue_date
  let d3 := aiDate "expiry_date" data.expiry_date
  let d4 := aiDate "admission_date" data.admission_date
  let d5 := aiDate "admit_until_date" data.admit_until_date
  let d6 := aiDate "priority_date" data.priority_date
  let d7 := aiDate "validity_from" data.validity_from
  let d8 := aiDate "validity_to" data.validity_to
  { r with
    date_of_birth := d1.1, issue_date := d2.1, expiry_date := d3.1,
    admission_date := d4.1, admit_until_date := d5.1, priority_date := d6.1,
    validity_from := d7.1, validity_to := d8.1,
    warnings := d1.2 ++ d2.2 ++ d3.2 ++ d4.2 ++ d5.2 ++ d6.2 ++ d7.2 ++ d8.2,
    confidence_scores := data.confidence_scores.getD [] }

/-- The per-field rule of the `_merge_results` loop: when the AI value is
`None` or `""` and the base value is truthy, take the base value,
otherwise keep the AI value. -/
def mergeField (ai base : Option PyVal) : Option PyVal :=
  if pyUnset ai && pyTruthy base then base else ai

/-- `_merge_results base_result ai_result`: apply the field loop to every
dataclass field (for the list-valued `warnings` and dict-valued
`confidence_scores` the loop's `is None / == ""` test never fires, so the
AI values are kept), then extend the warnings with the base warnings and
take `extracted_text` from the base result. -/
def merge_results (base ai : ExtractedData) : ExtractedData := {
  document_type := mergeField ai.document_type base.document_type,
  document_number := mergeField ai.document_number base.document_number,
  full_name := mergeField ai.full_name base.full_name,
  first_name := mergeField ai.first_name base.first_name,
  last_name := mergeField ai.last_name base.last_name,
  date_of_birth := mergeField ai.date_of_birth base.date_of_birth,
  nationality := mergeField ai.nationality base.nationality,
  passport_number := mergeField ai.passport_number base.passport_number,
  issue_date := mergeField ai.issue_date base.issue_date,
  expiry_date := mergeField ai.expiry_date base.expiry_date,
  issuing_authority := mergeField ai.issuing_authority base.issuing_authority,
  place_of_issue := mergeField ai.place_of_issue base.place_of_issue,
  gender := mergeField ai.gender base.gender,
  visa_type := mergeField ai.visa_type base.visa_type,
  visa_class := mergeField ai.visa_class base.visa_class,
  control_number := mergeField ai.control_number base.control_number,
  entries := mergeField ai.entries base.entries,
  annot := mergeField ai.annot base.annot,
  i94_number := mergeField ai.i94_number base.i94_number,
  admission_date := mergeField ai.admission_date base.admission_date,
  admit_until_date := mergeField ai.admit_until_date base.admit_until_date,
  class_of_admission := mergeField ai.class_of_admission base.class_of_admission,
  receipt_number := mergeField ai.receipt_number base.receipt_number,
  priority_date := mergeField ai.priority_date base.priority_date,
  notice_type := mergeField ai.notice_type base.notice_type,
  validity_from := mergeField ai.validity_from base.validity_from,
  validity_to := mergeField ai.validity_to base.validity_to,
  beneficiary_name := mergeField ai.beneficiary_name base.beneficiary_name,
  petitioner_name := mergeField ai.petitioner_name base.petitioner_name,
  uscis_number := mergeField ai.uscis_number base.uscis_number,
  category := mergeField ai.category base.category,
  card_number := mergeField ai.card_number base.card_number,
  confidence_scores := ai.confidence_scores,
  extracted_text := base.extracted_text,
  warnings := ai.warnings ++ base.warnings }

/-! ## `DocumentDataMapper` (`document_data_mapper.py`) -/

/-- `getattr(extracted_data, field, None)` by field name. -/
def getEx (f : String) (e : ExtractedData) : Option PyVal :=
  if f = "document_type" then e.document_type
  else if f = "document_number" then e.document_number
  else if f = "full_name" then e.full_name
  else if f = "first_name" then e.first_name
  else if f = "last_name" then e.last_name
  else if f = "date_of_birth" then e.date_of_birth
  else if f = "nationality" then e.nationality
  else if f = "passport_number" then e.passport_number
  else if f = "issue_date" then e.issue_date
  else if f = "expiry_date" then e.expiry_date
  else if f = "issuing_authority" then e.issuing_authority
  else if f = "place_of_issue" then e.place_of_issue
  else if f = "gender" then e.gender
  else if f = "visa_type" then e.visa_type
  else if f = "visa_class" then e.visa_class
  else if f = "control_number" then e.control_number
  else if f = "entries" then e.entries
  else if f = "i94_number" then e.i94_number
  else if f = "admission_date" then e.admission_date
  else if f = "admit_until_date" then e.admit_until_date
  else if f = "class_of_admission" then e.class_of_admission
  else if f = "receipt_number" then e.receipt_number
  else if f = "priority_date" then e.priority_date
  else if f = "notice_type" then e.notice_type
  else if f = "validity_from" then e.validity_from
  else if f = "validity_to" then e.validity_to
  else if f = "beneficiary_name" then e.beneficiary_name
  else if f = "petitioner_name" then e.petitioner_name
  else if f = "uscis_number" then e.uscis_number
  else if f = "category" then e.category
  else if f = "card_number" then e.card_number
  else none

/-- A Python dict with string keys, as an insertion-ordered association
list; `dinsert` is `d[k] = v` (overwrite in place, else append). -/
def dinsert (k : String) (v : Option PyVal) :
    List (String × Option PyVal) → List (String × Option PyVal)
  | [] => [(k, v)]
  | (k', v') :: t => if k' = k then (k, v) :: t else (k', v') :: dinsert k v t

/-- One `DocumentMapping` entry: document-metadata and profile-update
field tables (db field ↦ extracted field) and the confidence threshold
(0.7 in the source, kept in hundredths — no modelled path computes with it). -/
structure DocumentMapping where
  document_metadata_fields : List (String × String)
  profile_update_fields : List (String × String)
  confidence_threshold_hundredths : Nat := 70

/-- `_initialize_mappings`. -/
def mappings : List (String × DocumentMapping) := [
  ("passport", {
    document_metadata_fields := [
      ("document_number", "passport_number"),
      ("issuing_authority", "issuing_authority"),
      ("issue_date", "issue_date"),
      ("expiry_date", "expiry_date")],
    profile_update_fields := [
      ("passport_number", "passport_number"),
      ("passport_expiry_date", "expiry_date")] }),
  ("visa", {
    document_metadata_fields := [
      ("document_number", "control_number"),
      ("document_subtype", "visa_type"),
      ("issuing_authority", "issuing_authority"),
      ("issue_date", "issue_date"),
      ("expiry_date", "expiry_date"),
      ("related_immigration_type", "visa_class")],
    profile_update_fields := [
      ("visa_expiry_date", "expiry_date")] }),
  ("i94", {
    document_metadata_fields := [
      ("document_number", "i94_number"),
      ("issue_date", "admission_date"),
      ("expiry_date", "admit_until_date"),
      ("related_immigration_type", "class_of_admission")],
    profile_update_fields := [
      ("most_recent_i94_number", "i94_number"),
      ("most_recent_entry_date", "admission_date"),
      ("authorized_stay_until", "admit_until_date")] }),
  ("i797", {
    document_metadata_fields := [
      ("document_number", "receipt_number"),
      ("document_subtype", "notice_type"),
      ("issue_date", "validity_from"),
      ("expiry_date", "validity_to"),
      ("issuing_authority", "issuing_authority")],
    profile_update_fields := [] }),
  ("ead", {
    document_metadata_fields := [
      ("document_number", "card_number"),
      ("document_subtype", "category"),
      ("issue_date", "issue_date"),
      ("expiry_date", "expiry_date")],
    profile_update_fields := [
      ("ead_expiry_date", "expiry_date")] }),
  ("green_card", {
    document_metadata_fields := [
      ("document_number", "card_number"),
      ("issue_date", "issue_date"),
      ("expiry_date", "expiry_date")],
    profile_update_fields := [] }),
  ("drivers_license", {
    document_metadata_fields := [
      ("document_number", "document_number"),
      ("issuing_authority", "issuing_authority"),
      ("issue_date", "issue_date"),
      ("expiry_date", "expiry_date")],
    profile_update_fields := [] })]

/-- The output dict of `map_extracted_data` / `validate_mapping_data`:
`document_metadata`, `profile_updates`, `confidence_info`, `warnings`,
plus the optional keys the type-specific logic can add. -/
structure MappingResult where
  document_metadata : List (String × Option PyVal) := []
  profile_updates : List (String × Option PyVal) := []
  confidence_info : List (String × Nat) := []
  warnings : List String := []
  country_lookup : Option String := none
  priority_date_update : Option (PyVal × String) := none
  status_hint : Option String := none
deriving DecidableEq, Repr

/-- One step of the document-metadata mapping loop: skip `None` values;
convert `date` values to ISO strings; for `issue_date`/`expiry_date`
re-validate string values via `strptime` (warn and skip on failure). -/
def mapMetaStep (e : ExtractedData) (res : MappingResult)
    (fields : String × String) : MappingResult :=
  match getEx fields.2 e with
  | none => res
  | some (.date d) =>
    { res with document_metadata :=
        dinsert fields.1 (some (.str (isoformat d))) res.document_metadata }
  | some (.str s) =>
    if fields.1 = "issue_date" || fields.1 = "expiry_date" then
      match strptimeIsoDate s with
      | some d =>
        { res with document_metadata :=
            dinsert fields.1 (some (.str (isoformat d))) res.document_metadata }
      | none =>
        { res with warnings :=
            res.warnings ++ ["Could not parse date for " ++ fields.1 ++ ": " ++ s] }
    else
      { res with document_metadata :=
          dinsert fields.1 (some (.str s)) res.document_metadata }

/-- One step of the profile-update mapping loop: skip `None` values and
convert `date` values to ISO strings. -/
def mapProfileStep (e : ExtractedData) (res : MappingResult)
    (fields : String × String) : MappingResult :=
  match getEx fields.2 e with
  | none => res
  | some (.date d) =>
    { res with profile_updates :=
        dinsert fields.1 (some (.str (isoformat d))) res.profile_updates }
  | some v =>
    { res with profile_updates := dinsert fields.1 (some v) res.profile_updates }

/-- The visa-type alias table of `_apply_document_specific_logic`. -/
def visaMapping : List (String × String) :=
  [("H-1B", "H1-B"), ("H1B", "H1-B"), ("L-1", "L-1"), ("L1", "L-1"),
   ("F-1", "F-1"), ("F1", "F-1"), ("J-1", "J-1"), ("J1", "J-1"),
   ("O-1", "O-1"), ("O1", "O-1"), ("B-1/B-2", "B1/B2"), ("B1/B2", "B1/B2")]

/-- The EAD category table of `_apply_document_specific_logic`. -/
def categoryMapping : List (String × String) :=
  [("C09", "H1-B spouse (H4)"), ("C10", "L-1 spouse (L2)"), ("A05", "Asylee"),
   ("C03", "F-1 student"), ("C08", "Asylum applicant")]

/-- `_apply_document_specific_logic`.  The `upper()` calls are only ever
reached with string-valued fields (every code path that populates
`visa_type` and `category` stores strings); a `date` value is left alone. -/
def apply_document_specific_logic (res : MappingResult) (e : ExtractedData)
    (docType : String) : MappingResult :=
  if docType = "passport" then
    if pyTruthy e.nationality then
      match e.nationality with
      | some (.str s) => { res with country_lookup := some s }
      | _ => res
    else res
  else if docType = "visa" then
    match e.visa_type with
    | some (.str s) =>
      if strIsEmpty s then res
      else
        match visaMapping.lookup (upperS s) with
        | some canon =>
          { res with document_metadata :=
              dinsert "related_immigration_type" (some (.str canon)) res.document_metadata }
        | none => res
    | _ => res
  else if docType = "i94" then
    match e.admit_until_date with
    | some (.str s) =>
      if isSubstr (ofStr "D/S") (ofStr (upperS s)) then
        { res with
          profile_updates := dinsert "authorized_stay_until" none res.profile_updates,
          warnings := res.warnings ++
            ["I-94 shows Duration of Status (D/S) - no specific end date"] }
      else res
    | _ => res
  else if docType = "i797" then
    if pyTruthy e.priority_date then
      match e.priority_date with
      | some (.date d) =>
        { res with priority_date_update := some (.str (isoformat d), "i797") }
      | some v => { res with priority_date_update := some (v, "i797") }
      | none => res
    else res
  else if docType = "ead" then
    let res := if pyTruthy e.uscis_number then
        match e.uscis_number with
        | some v =>
          { res with profile_updates :=
              dinsert "alien_registration_number" (some v) res.profile_updates }
        | none => res
      else res
    match e.category with
    | some (.str s) =>
      if strIsEmpty s then res
      else
        match categoryMapping.lookup (upperS s) with
        | some hint => { res with status_hint := some hint }
        | none => res
    | _ => res
  else res

/-- One step of the `_create_generic_mapping` loop: skip `None` values,
convert dates to ISO strings, insert everything else as-is. -/
def genericMapStep (e : ExtractedData) (res : MappingResult)
    (fields : String × String) : MappingResult :=
  match getEx fields.2 e with
  | none => res
  | some (.date d) =>
    { res with document_metadata :=
        dinsert fields.1 (some (.str (isoformat d))) res.document_metadata }
  | some v =>
    { res with document_metadata := dinsert fields.1 (some v) res.document_metadata }

/-- `_create_generic_mapping` for unknown document types. -/
def create_generic_mapping (e : ExtractedData) : MappingResult :=
  let basic := [("document_number", "document_number"), ("issue_date", "issue_date"),
    ("expiry_date", "expiry_date"), ("issuing_authority", "issuing_authority")]
  basic.foldl (genericMapStep e)
    { warnings := ["Unknown document type - using generic mapping"] }

/-- `map_extracted_data`. -/
def map_extracted_data (e : ExtractedData) (docType : String) : MappingResult :=
  match mappings.lookup docType with
  | none => create_generic_mapping e
  | some mp =>
    let res : MappingResult := {}
    let res := mp.document_metadata_fields.foldl (mapMetaStep e) res
    let res := mp.profile_update_fields.foldl (mapProfileStep e) res
    let res := if e.confidence_scores.isEmpty then res
      else { res with confidence_info := e.confidence_scores }
    apply_document_specific_logic res e docType

/-- The per-entry check of `validate_mapping_data` on a field group:
delete a string-valued entry of a `date`-named field that `strptime`
rejects, collecting a warning. -/
def validateStep (acc : List (String × Option PyVal) × List String)
    (fv : String × Option PyVal) :
    List (String × Option PyVal) × List String :=
  match fv.2 with
  | some (.str s) =>
    if isSubstr (ofStr "date") (ofStr (lowerS fv.1)) then
      match strptimeIsoDate s with
      | some _ => (acc.1 ++ [fv], acc.2)
      | none => (acc.1, acc.2 ++ ["Invalid date format for " ++ fv.1 ++ ": " ++ s])
    else (acc.1 ++ [fv], acc.2)
  | _ => (acc.1 ++ [fv], acc.2)

def validateGroup (entries : List (String × Option PyVal)) :
    List (String × Option PyVal) × List String :=
  entries.foldl validateStep ([], [])

/-- `validate_mapping_data`: re-validate `date`-named string fields in
both groups, then delete an empty or non-string `document_number`. -/
def validate_mapping_data (m : MappingResult) : MappingResult :=
  let dmw := validateGroup m.document_metadata
  let puw := validateGroup m.profile_updates
  let res := { m with
    document_metadata := dmw.1, profile_updates := puw.1,
    warnings := m.warnings ++ dmw.2 ++ puw.2 }
  match res.document_metadata.lookup "document_number" with
  | some (some (.str s)) =>
    if (pyStrip (ofStr s)).isEmpty then
      { res with
        document_metadata := res.document_metadata.filter (fun fv => fv.1 ≠ "document_number"),
        warnings := res.warnings ++ ["Empty or invalid document number"] }
    else res
  | some _ =>
    { res with
      document_metadata := res.document_metadata.filter (fun fv => fv.1 ≠ "document_number"),
      warnings := res.warnings ++ ["Empty or invalid document number"] }
  | none => res

/-! ## Profile reconciliation (`document.py`, `_update_profile_from_document`) -/

/-- The `ImmigrationProfile` columns that `profile_updates` can name
(the reconciler's `hasattr` guard: any other field name is skipped). -/
structure Profile where
  most_recent_i94_number : Option PyVal := none
  most_recent_entry_date : Option PyVal := none
  alien_registration_number : Option PyVal := none
  authorized_stay_until : Option PyVal := none
  ead_expiry_date : Option PyVal := none
  visa_expiry_date : Option PyVal := none
  passport_number : Option PyVal := none
  passport_expiry_date : Option PyVal := none
deriving DecidableEq, Repr

def profileFields : List String :=
  ["most_recent_i94_number", "most_recent_entry_date", "alien_registration_number",
   "authorized_stay_until", "ead_expiry_date", "visa_expiry_date",
   "passport_number", "passport_expiry_date"]

def getProf (f : String) (p : Profile) : Option PyVal :=
  if f = "most_recent_i94_number" then p.most_recent_i94_number
  else if f = "most_recent_entry_date" then p.most_recent_entry_date
  else if f = "alien_registration_number" then p.alien_registration_number
  else if f = "authorized_stay_until" then p.authorized_stay_until
  else if f = "ead_expiry_date" then p.ead_expiry_date
  else if f = "visa_expiry_date" then p.visa_expiry_date
  else if f = "passport_number" then p.passport_number
  else if f = "passport_expiry_date" then p.passport_expiry_date
  else none

def setProf (f : String) (v : Option PyVal) (p : Profile) : Profile :=
  if f = "most_recent_i94_number" then { p with most_recent_i94_number := v }
  else if f = "most_recent_entry_date" then { p with most_recent_entry_date := v }
  else if f = "alien_registration_number" then { p with alien_registration_number := v }
  else if f = "authorized_stay_until" then { p with authorized_stay_until := v }
  else if f = "ead_expiry_date" then { p with ead_expiry_date := v }
  else if f = "visa_expiry_date" then { p with visa_expiry_date := v }
  else if f = "passport_number" then { p with passport_number := v }
  else if f = "passport_expiry_date" then { p with passport_expiry_date := v }
  else p

/-- `_parse_date_field` of `document.py`: `None`/empty → `None`, else
`strptime('%Y-%m-%d')`, with `ValueError` logged and `None` returned. -/
def parse_date_field (s : String) : Option PyDate :=
  if strIsEmpty s then none else strptimeIsoDate s

/-- The `'i94' in validated_data.get('document_metadata', {}).get('document_type', '')`
test of the I-94 branch: the `document_metadata` dict's `document_type`
entry, defaulting to the empty string when absent. -/
def metaDocTypeStr (validated : MappingResult) : String :=
  match validated.document_metadata.lookup "document_type" with
  | some (some (.str s)) => s
  | _ => ""

/-- One iteration of the `_update_profile_from_document` loop (for a
non-`None` update value): parse `date`-named string values back to dates,
skip unknown profile fields, then run the `should_update` precedence
chain and write when it says so. -/
def updateProfileField (validated : MappingResult) (p : Profile)
    (field : String) (value0 : Option PyVal) : Profile :=
  match value0 with
  | none => p
  | some v0 =>
    let value : Option PyVal :=
      match v0 with
      | .str s =>
        if isSubstr (ofStr "date") (ofStr (lowerS field)) then
          (parse_date_field s).map PyVal.date
        else some v0
      | _ => some v0
    if profileFields.contains field then
      let cur := getProf field p
      let su : Bool :=
        if cur = none then true
        else if (field = "most_recent_entry_date" || field = "most_recent_i94_number") &&
            isSubstr (ofStr "i94") (ofStr (metaDocTypeStr validated)) then true
        else
          match value, cur with
          | some (.date nv), some (.date cv) =>
            if endsWithS field "_expiry_date" then PyDate.ltb cv nv
            else if (field = "passport_number" || field = "alien_registration_number") &&
                !pyTruthy cur then true
            else false
          | _, _ =>
            if (field = "passport_number" || field = "alien_registration_number") &&
                !pyTruthy cur then true
            else false
      if su then setProf field value p else p
    else p

/-- The field loop of `_update_profile_from_document` over the
`profile_updates` entries (the priority-date and country-lookup special
cases that follow it touch no `Profile` column modelled here). -/
def update_profile_from_document (p : Profile)
    (profile_updates : List (String × Option PyVal))
    (validated : MappingResult) : Profile :=
  profile_updates.foldl (fun q kv => updateProfileField validated q kv.1 kv.2) p

/-! ## Extraction entry points (`extract_from_file`, `extract_with_ai`)

The external collaborators (PIL image decoding, Tesseract OCR, PyPDF2
text-layer reads, pdf2image rasterisation, the AI vision call) are
modelled as oracle arguments: an `Except String σ` is the call's outcome,
`.error msg` standing for a raised exception with message `msg`. -/

/-- `if not document_type_hint:` — fall back to detection when the hint
is `None` or empty. -/
def resolveHint (hint : Option String) (text : List Char) : Option String :=
  match hint with
  | some h => if strIsEmpty h then detect_document_type text else some h
  | none => detect_document_type text

/-- `_extract_from_image`: decode + OCR (oracle), then detect and extract;
the produced record carries the OCR text. -/
def extract_from_image (ocrText : Except String String) (hint : Option String) :
    Except String ExtractedData :=
  match ocrText with
  | .error m => .error m
  | .ok text =>
    let r := extract_structured_data (ofStr text) (resolveHint hint (ofStr text))
    .ok { r with extracted_text := some text }

/-- The page loop of `_extract_from_pdf`: concatenate page texts (each
followed by a newline) until a page read raises; the exception is caught
and the text collected so far is kept. -/
def pdfCollect (pages : List (Except String String)) : String :=
  go "" pages where
  go : String → List (Except String String) → String
    | acc, [] => acc
    | acc, .ok t :: rest => go (acc ++ t ++ "\n") rest
    | acc, .error _ :: _ => acc

/-- `_extract_from_pdf`: use the text layer if it has ≥ 100 stripped
characters, otherwise rasterise and OCR (an oracle whose exception
propagates to `extract_from_file`'s handler). -/
def extract_from_pdf (pdfPages : List (Except String String))
    (pdfOcrText : Except String String) (hint : Option String) :
    Except String ExtractedData :=
  let text := pdfCollect pdfPages
  if (pyStrip (ofStr text)).length < 100 then
    match pdfOcrText with
    | .error m => .error m
    | .ok t =>
      let r := extract_structured_data (ofStr t) (resolveHint hint (ofStr t))
      .ok { r with extracted_text := some t }
  else
    let r := extract_structured_data (ofStr text) (resolveHint hint (ofStr text))
    .ok { r with extracted_text := some text }

def imageFileTypes : List String := ["image/jpeg", "image/jpg", "image/png", "image/tiff"]

/-- `extract_from_file`: dispatch on the lowercased file type; an
unsupported type raises `ValueError`, and the surrounding `try` turns
every exception into an empty record with an `Extraction error:` warning. -/
def extract_from_file (fileType : String) (ocrText : Except String String)
    (pdfPages : List (Except String String)) (pdfOcrText : Except String String)
    (hint : Option String) : ExtractedData :=
  let attempt : Except String ExtractedData :=
    if imageFileTypes.contains (lowerS fileType) then extract_from_image ocrText hint
    else if lowerS fileType = "application/pdf" then extract_from_pdf pdfPages pdfOcrText hint
    else .error ("Unsupported file type: " ++ fileType)
  match attempt with
  | .ok r => r
  | .error m => { warnings := ["Extraction error: " ++ m] }

def visionFileTypes : List String := ["image/jpeg", "image/jpg", "image/png"]

/-- `_extract_with_vision` (dispatching to `_extract_with_openai` /
`_extract_with_anthropic`): the AI call and the JSON extraction from its
response are one oracle — `.ok data` means the call succeeded and a
`{...}` block parsed into the JSON object `data`; `.error` means the call
raised, the response held no `{...}` block, or `json.loads` raised.
Crucially, the helpers' own `try`/`except` catches every such failure,
logs it, and returns an empty `ExtractedData()` with **no warning** — the
error never propagates to `extract_with_ai`'s handler. -/
def extract_with_vision (aiCall : Except String AiJson) : ExtractedData :=
  match aiCall with
  | .ok data => parse_ai_response data
  | .error _ => { }

/-- `extract_with_ai`: run the base extraction first (it cannot raise);
without an AI client return it unchanged; otherwise merge the base result
with the vision result (which is an empty record when the AI call
failed — see `extract_with_vision`).  Only exceptions raised outside the
vision helpers — here, the PDF first-page rasterisation step — reach the
outer handler, which appends an `AI extraction failed:` warning to the
base result. -/
def extract_with_ai (aiAvailable : Bool) (fileType : String)
    (base : ExtractedData) (aiCall : Except String AiJson)
    (pdfFirstPage : Except String Bool) : ExtractedData :=
  if !aiAvailable then base
  else
    let attempt : Except String ExtractedData :=
      if visionFileTypes.contains (lowerS fileType) then
        .ok (merge_results base (extract_with_vision aiCall))
      else if lowerS fileType = "application/pdf" then
        match pdfFirstPage with
        | .error m => .error m
        | .ok hasImages =>
          if hasImages then .ok (merge_results base (extract_with_vision aiCall))
          else .ok base
      else .ok base
    match attempt with
    | .ok r => r
    | .error m => { base with warnings := base.warnings ++ ["AI extraction failed: " ++ m] }

/-! ## Derived definitions used by the claim statements -/

/-- The value fields of `ExtractedData` (every dataclass field over which
the merge loop's precedence rule acts, i.e. all fields except the
list-valued `warnings`, the dict-valued `confidence_scores` and the
always-base `extracted_text`). -/
def extractedFieldGetters : List (ExtractedData → Option PyVal) :=
  [fun r => r.document_type, fun r => r.document_number, fun r => r.full_name,
   fun r => r.first_name, fun r => r.last_name, fun r => r.date_of_birth,
   fun r => r.nationality, fun r => r.passport_number, fun r => r.issue_date,
   fun r => r.expiry_date, fun r => r.issuing_authority, fun r => r.place_of_issue,
   fun r => r.gender, fun r => r.visa_type, fun r => r.visa_class,
   fun r => r.control_number, fun r => r.entries, fun r => r.annot,
   fun r => r.i94_number, fun r => r.admission_date, fun r => r.admit_until_date,
   fun r => r.class_of_admission, fun r => r.receipt_number, fun r => r.priority_date,
   fun r => r.notice_type, fun r => r.validity_from, fun r => r.validity_to,
   fun r => r.beneficiary_name, fun r => r.petitioner_name, fun r => r.uscis_number,
   fun r => r.category, fun r => r.card_number]

/-- A date attribute is a calendar date or absent — never a string. -/
def dateFieldOk (v : Option PyVal) : Prop := v = none ∨ ∃ d, v = some (.date d)

/-- All eight date attributes of an `ExtractedData` are dates-or-absent. -/
def dateAttrsOk (r : ExtractedData) : Prop :=
  dateFieldOk r.date_of_birth ∧ dateFieldOk r.issue_date ∧
  dateFieldOk r.expiry_date ∧ dateFieldOk r.admission_date ∧
  dateFieldOk r.admit_until_date ∧ dateFieldOk r.priority_date ∧
  dateFieldOk r.validity_from ∧ dateFieldOk r.validity_to

/-- The classifier score as a closed formula: 10 per matching
high-priority phrase, 5 per medium-priority phrase, 15 per regex pattern
matching the lowercased text (case-sensitively, as the source searches). -/
def tierScore (textLower : List Char) (kd : KwEntry) : Nat :=
  10 * kd.high.countP (fun w => isSubstr (ofStr w) textLower) +
  5 * kd.med.countP (fun w => isSubstr (ofStr w) textLower) +
  15 * kd.pats.countP (fun p => (rxSearch false p textLower).isSome)

/-- Modelled from the spec (C5): the same scoring and tie-breaking, but
with the regex patterns matched case-insensitively against the text, as
the spec's words assert. -/
def scoreOfSpecCI (textLower : List Char) (kd : KwEntry) : Nat :=
  let s1 := kd.high.foldl (fun sc w => if isSubstr (ofStr w) textLower then sc + 10 else sc) 0
  let s2 := kd.med.foldl (fun sc w => if isSubstr (ofStr w) textLower then sc + 5 else sc) s1
  kd.pats.foldl (fun sc p => if (rxSearch true p textLower).isSome then sc + 15 else sc) s2

/-- Modelled from the spec (C5): `_detect_document_type` as the spec
describes it, with case-insensitive pattern matching. -/
def spec_detect_document_type (text : List Char) : Option String :=
  let tl := lowerL text
  let scores := (documentKeywords.map (fun kd => (kd.name, scoreOfSpecCI tl kd))).filter
    (fun p => 0 < p.2)
  match scores with
  | p :: rest => some (pickMax p rest).1
  | [] =>
    let cnt := nonImmigrationKeywords.countP (fun w => isSubstr (ofStr w) tl)
    if 3 ≤ cnt then some "other" else none

/-- No entry of the association list carries key `k`. -/
def noKey (k : String) (l : List (String × Option PyVal)) : Prop :=
  ∀ fv ∈ l, fv.1 ≠ k

/-! ## Helper lemmas -/

theorem lookup_dinsert (k : String) (v : Option PyVal)
    (l : List (String × Option PyVal)) : (dinsert k v l).lookup k = some v := by
  induction l with
  | nil => simp [dinsert, List.lookup]
  | cons h t ih =>
    obtain ⟨k1, v1⟩ := h
    by_cases hk : k1 = k
    · subst hk
      simp [dinsert, List.lookup]
    · have hb : (k == k1) = false := beq_eq_false_iff_ne.mpr (Ne.symm hk)
      simp only [dinsert, if_neg hk, List.lookup, hb]
      exact ih

theorem lookup_dinsert_ne (k k' : String) (hne : k' ≠ k) (v : Option PyVal)
    (l : List (String × Option PyVal)) :
    (dinsert k v l).lookup k' = l.lookup k' := by
  have hb : (k' == k) = false := beq_eq_false_iff_ne.mpr hne
  induction l with
  | nil => simp [dinsert, List.lookup, hb]
  | cons h t ih =>
    obtain ⟨k1, v1⟩ := h
    by_cases hk : k1 = k
    · subst hk
      simp [dinsert, List.lookup, hb]
    · simp only [dinsert, if_neg hk, List.lookup]
      cases hbk : k' == k1 <;> simp [hbk, ih]

theorem mergeField_keeps_ai {a b : Option PyVal} (h : pyUnset a = false) :
    mergeField a b = a := by
  simp [mergeField, h]

theorem mergeField_falls_back {a b : Option PyVal} (h1 : pyUnset a = true)
    (h2 : pyTruthy b = true) : mergeField a b = b := by
  simp [mergeField, h1, h2]

/-! ## Claim theorems -/

/-- C1: merging a regex-based base result with a vision-based result keeps,
for every field, the vision value whenever it is set (not `None` and not
the empty string) and falls back to the base value when the vision value
is unset and the base value is truthy; the merged warnings are the
concatenation of both warning lists (vision's first, no deduplication)
and the merged `extracted_text` always equals the base result's. -/
theorem C1_merge_precedence (base ai : ExtractedData) :
    (∀ g ∈ extractedFieldGetters,
      (pyUnset (g ai) = false → g (merge_results base ai) = g ai) ∧
      (pyUnset (g ai) = true → pyTruthy (g base) = true →
        g (merge_results base ai) = g base)) ∧
    (merge_results base ai).warnings = ai.warnings ++ base.warnings ∧
    (merge_results base ai).extracted_text = base.extracted_text := by
  refine ⟨?_, rfl, rfl⟩
  intro g hg
  simp only [extractedFieldGetters, List.mem_cons, List.not_mem_nil, or_false] at hg
  rcases hg with rfl | rfl | rfl | rfl | rfl | rfl | rfl | rfl | rfl | rfl | rfl |
    rfl | rfl | rfl | rfl | rfl | rfl | rfl | rfl | rfl | rfl | rfl | rfl | rfl |
    rfl | rfl | rfl | rfl | rfl | rfl | rfl | rfl <;>
    exact ⟨fun h => mergeField_keeps_ai h, fun h1 h2 => mergeField_falls_back h1 h2⟩

/-- Witness for C1 at concrete records: a set vision field wins, an unset
vision field falls back to the truthy base field. -/
theorem C1_merge_precedence_witness :
    (merge_results { document_type := some (.str "passport") }
      { document_type := some (.str "visa") }).document_type = some (.str "visa") ∧
    (merge_results { document_type := some (.str "passport") }
      { }).document_type = some (.str "passport") := by
  constructor
  · exact ((C1_merge_precedence { document_type := some (.str "passport") }
      { document_type := some (.str "visa") }).1 (fun r => r.document_type)
      (List.mem_cons_self _ _)).1 (by decide)
  · exact ((C1_merge_precedence { document_type := some (.str "passport") }
      { }).1 (fun r => r.document_type)
      (List.mem_cons_self _ _)).2 (by decide) (by decide)

theorem dateFieldOk_map (o : Option PyDate) : dateFieldOk (o.map PyVal.date) := by
  cases o with
  | none => exact Or.inl rfl
  | some d => exact Or.inr ⟨d, rfl⟩

theorem dateFieldOk_none : dateFieldOk none := Or.inl rfl

theorem aiDate_ok (n : String) (v : Option String) : dateFieldOk (aiDate n v).1 := by
  cases v with
  | none => exact Or.inl rfl
  | some s =>
    simp only [aiDate]
    split_ifs with h1 h2
    · exact Or.inl rfl
    · exact Or.inl rfl
    · cases h : strptimeIsoDate s <;> simp [h, dateFieldOk]

theorem extract_passport_data_ok (text : List Char) (r0 : ExtractedData)
    (h : dateAttrsOk r0) : dateAttrsOk (extract_passport_data text r0) := by
  obtain ⟨h1, h2, h3, h4, h5, h6, h7, h8⟩ := h
  simp only [extract_passport_data]
  repeat' split
  all_goals simp_all [dateAttrsOk, dateFieldOk_map]

theorem extract_visa_data_ok (text : List Char) (r0 : ExtractedData)
    (h : dateAttrsOk r0) : dateAttrsOk (extract_visa_data text r0) := by
  obtain ⟨h1, h2, h3, h4, h5, h6, h7, h8⟩ := h
  simp only [extract_visa_data]
  repeat' split
  all_goals simp_all [dateAttrsOk, dateFieldOk_map]

theorem extract_i94_data_ok (text : List Char) (r0 : ExtractedData)
    (h : dateAttrsOk r0) : dateAttrsOk (extract_i94_data text r0) := by
  obtain ⟨h1, h2, h3, h4, h5, h6, h7, h8⟩ := h
  simp only [extract_i94_data]
  repeat' split
  all_goals simp_all [dateAttrsOk, dateFieldOk_map]

theorem extract_i797_data_ok (text : List Char) (r0 : ExtractedData)
    (h : dateAttrsOk r0) : dateAttrsOk (extract_i797_data text r0) := by
  obtain ⟨h1, h2, h3, h4, h5, h6, h7, h8⟩ := h
  simp only [extract_i797_data]
  repeat' split
  all_goals simp_all [dateAttrsOk, dateFieldOk_map]

theorem extract_ead_data_ok (text : List Char) (r0 : ExtractedData)
    (h : dateAttrsOk r0) : dateAttrsOk (extract_ead_data text r0) := by
  obtain ⟨h1, h2, h3, h4, h5, h6, h7, h8⟩ := h
  simp only [extract_ead_data]
  repeat' split
  all_goals simp_all [dateAttrsOk, dateFieldOk_map]

theorem extract_generic_data_ok (text : List Char) (r0 : ExtractedData)
    (h : dateAttrsOk r0) : dateAttrsOk (extract_generic_data text r0) := by
  obtain ⟨h1, h2, h3, h4, h5, h6, h7, h8⟩ := h
  simp only [extract_generic_data]
  repeat' split
  all_goals simp_all [dateAttrsOk, dateFieldOk_map]

theorem extract_structured_data_ok (text : List Char) (docType : Option String) :
    dateAttrsOk (extract_structured_data text docType) := by
  have hbase : dateAttrsOk { document_type := docType.map PyVal.str } := by
    exact ⟨Or.inl rfl, Or.inl rfl, Or.inl rfl, Or.inl rfl, Or.inl rfl,
      Or.inl rfl, Or.inl rfl, Or.inl rfl⟩
  simp only [extract_structured_data]
  split_ifs
  · exact extract_passport_data_ok _ _ hbase
  · exact extract_visa_data_ok _ _ hbase
  · exact extract_i94_data_ok _ _ hbase
  · exact extract_i797_data_ok _ _ hbase
  · exact extract_ead_data_ok _ _ hbase
  · exact extract_generic_data_ok _ _ hbase

/-- C2: a date-field value equal to the literal `"D/S"` never populates a
date field — the vision-response parser leaves the `ExtractedData` date
attribute unset and appends a warning mentioning Duration of Status, and
the I-94 mapping turns an `admit_until_date` containing `"D/S"` into a
`None` profile end date plus a warning; in general every date attribute
produced by the vision parser or the structured extractor is a calendar
date or absent, never a textual sentinel. -/
theorem C2_duration_of_status_sentinel :
    (∀ data : AiJson, data.admit_until_date = some "D/S" →
      (parse_ai_response data).admit_until_date = none ∧
      ∃ w ∈ (parse_ai_response data).warnings,
        isSubstr (ofStr "Duration of Status") (ofStr w) = true) ∧
    (∀ (e : ExtractedData) (s : String), e.admit_until_date = some (.str s) →
      isSubstr (ofStr "D/S") (ofStr (upperS s)) = true →
      (map_extracted_data e "i94").profile_updates.lookup "authorized_stay_until" =
        some none ∧
      "I-94 shows Duration of Status (D/S) - no specific end date" ∈
        (map_extracted_data e "i94").warnings) ∧
    (∀ data : AiJson, dateAttrsOk (parse_ai_response data)) ∧
    (∀ (text : List Char) (docType : Option String),
      dateAttrsOk (extract_structured_data text docType)) := by
  refine ⟨?_, ?_, ?_, extract_structured_data_ok⟩
  · intro data h
    have hne : strIsEmpty "D/S" = false := rfl
    constructor
    · simp [parse_ai_response, h, aiDate, hne]
    · refine ⟨"admit_until_date" ++ ": Duration of Status (D/S)", ?_, by decide⟩
      simp [parse_ai_response, h, aiDate, hne, List.mem_append]
  · intro e s hA hDS
    have hm : mappings.lookup "i94" = some {
        document_metadata_fields := [("document_number", "i94_number"),
          ("issue_date", "admission_date"), ("expiry_date", "admit_until_date"),
          ("related_immigration_type", "class_of_admission")],
        profile_update_fields := [("most_recent_i94_number", "i94_number"),
          ("most_recent_entry_date", "admission_date"),
          ("authorized_stay_until", "admit_until_date")] } := by rfl
    simp only [map_extracted_data, hm]
    simp only [apply_document_specific_logic, hA, hDS]
    norm_num
    exact ⟨lookup_dinsert _ _ _, by simp [List.mem_append]⟩
  · intro data
    refine ⟨aiDate_ok _ _, aiDate_ok _ _, aiDate_ok _ _, aiDate_ok _ _,
      aiDate_ok _ _, aiDate_ok _ _, aiDate_ok _ _, aiDate_ok _ _⟩

/-- Witness for C2 at a concrete vision response and a concrete record. -/
theorem C2_duration_of_status_sentinel_witness :
    (parse_ai_response { admit_until_date := some "D/S" }).admit_until_date = none ∧
    (map_extracted_data { admit_until_date := some (.str "D/S") }
      "i94").profile_updates.lookup "authorized_stay_until" = some none :=
  ⟨(C2_duration_of_status_sentinel.1 { admit_until_date := some "D/S" } rfl).1,
   (C2_duration_of_status_sentinel.2.1 { admit_until_date := some (.str "D/S") }
     "D/S" rfl (by decide)).1⟩

/-- C4: for the `*_expiry_date` profile fields, when both the current
value and the incoming value are calendar dates the reconciler writes the
new value exactly when it is strictly later than the current one (an
incoming ISO string is first parsed back to a date); when the current
value is `None` the new value is always written; concretely, a current
`visa_expiry_date` of 2025-06-01 survives an incoming 2024-01-01 and is
replaced by an incoming 2026-01-01. -/
theorem C4_expiry_strictly_later :
    (∀ (validated : MappingResult) (p : Profile) (field : String),
      field ∈ ["ead_expiry_date", "visa_expiry_date", "passport_expiry_date"] →
      ∀ (cv nv : PyDate), getProf field p = some (.date cv) →
      updateProfileField validated p field (some (.date nv)) =
        (if PyDate.ltb cv nv then setProf field (some (.date nv)) p else p)) ∧
    (∀ (validated : MappingResult) (p : Profile) (field : String),
      field ∈ ["ead_expiry_date", "visa_expiry_date", "passport_expiry_date"] →
      ∀ (s : String) (cv nv : PyDate), getProf field p = some (.date cv) →
      parse_date_field s = some nv →
      updateProfileField validated p field (some (.str s)) =
        (if PyDate.ltb cv nv then setProf field (some (.date nv)) p else p)) ∧
    (∀ (validated : MappingResult) (p : Profile) (field : String),
      field ∈ ["ead_expiry_date", "visa_expiry_date", "passport_expiry_date"] →
      getProf field p = none →
      ∀ nv : PyDate, updateProfileField validated p field (some (.date nv)) =
        setProf field (some (.date nv)) p) ∧
    (update_profile_from_document
        { visa_expiry_date := some (.date ⟨2025, 6, 1⟩) }
        [("visa_expiry_date", some (.str "2024-01-01"))] { } =
      { visa_expiry_date := some (.date ⟨2025, 6, 1⟩) }) ∧
    (update_profile_from_document
        { visa_expiry_date := some (.date ⟨2025, 6, 1⟩) }
        [("visa_expiry_date", some (.str "2026-01-01"))] { } =
      { visa_expiry_date := some (.date ⟨2026, 1, 1⟩) }) := by
  refine ⟨?_, ?_, ?_, by decide, by decide⟩
  · intro validated p field hf cv nv hc
    fin_cases hf
    · simp [getProf] at hc
      simp only [updateProfileField, getProf, setProf]
      simp [hc, profileFields, show endsWithS "ead_expiry_date" "_expiry_date" = true from rfl]
    · simp [getProf] at hc
      simp only [updateProfileField, getProf, setProf]
      simp [hc, profileFields, show endsWithS "visa_expiry_date" "_expiry_date" = true from rfl]
    · simp [getProf] at hc
      simp only [updateProfileField, getProf, setProf]
      simp [hc, profileFields,
        show endsWithS "passport_expiry_date" "_expiry_date" = true from rfl]
  · intro validated p field hf s cv nv hc hp
    fin_cases hf
    · simp [getProf] at hc
      simp only [updateProfileField, getProf, setProf]
      simp [hc, hp, profileFields,
        show isSubstr (ofStr "date") (ofStr (lowerS "ead_expiry_date")) = true from rfl,
        show endsWithS "ead_expiry_date" "_expiry_date" = true from rfl]
    · simp [getProf] at hc
      simp only [updateProfileField, getProf, setProf]
      simp [hc, hp, profileFields,
        show isSubstr (ofStr "date") (ofStr (lowerS "visa_expiry_date")) = true from rfl,
        show endsWithS "visa_expiry_date" "_expiry_date" = true from rfl]
    · simp [getProf] at hc
      simp only [updateProfileField, getProf, setProf]
      simp [hc, hp, profileFields,
        show isSubstr (ofStr "date") (ofStr (lowerS "passport_expiry_date")) = true from rfl,
        show endsWithS "passport_expiry_date" "_expiry_date" = true from rfl]
  · intro validated p field hf hc nv
    fin_cases hf
    · simp [getProf] at hc
      simp only [updateProfileField, getProf, setProf]
      simp [hc, profileFields]
    · simp [getProf] at hc
      simp only [updateProfileField, getProf, setProf]
      simp [hc, profileFields]
    · simp [getProf] at hc
      simp only [updateProfileField, getProf, setProf]
      simp [hc, profileFields]

/-- Witness for C4 at a concrete profile and incoming dates. -/
theorem C4_expiry_strictly_later_witness :
    updateProfileField { } { visa_expiry_date := some (.date ⟨2025, 6, 1⟩) }
      "visa_expiry_date" (some (.date ⟨2024, 1, 1⟩)) =
      { visa_expiry_date := some (.date ⟨2025, 6, 1⟩) } := by
  have h := C4_expiry_strictly_later.1 { } { visa_expiry_date := some (.date ⟨2025, 6, 1⟩) }
    "visa_expiry_date" (by simp) ⟨2025, 6, 1⟩ ⟨2024, 1, 1⟩ (by decide)
  rw [h]
  decide

/-- C3: the I-94 "always overwrite" rule never fires.  For a concrete I-94
extraction carrying a new I-94 number and entry date, the mapped
profile updates do contain the new values, but the mapper never writes a
`document_type` key into `document_metadata`, so the reconciler's guard
`'i94' in validated_data.get('document_metadata', {}).get('document_type', '')`
compares against the empty string and an already-set profile keeps its old
`most_recent_i94_number` and `most_recent_entry_date`. -/
theorem C3_i94_overwrite_guard_dead :
    (validate_mapping_data (map_extracted_data
        { i94_number := some (.str "11111111111"),
          admission_date := some (.date ⟨2026, 1, 2⟩) } "i94")).profile_updates.lookup
      "most_recent_i94_number" = some (some (.str "11111111111")) ∧
    (validate_mapping_data (map_extracted_data
        { i94_number := some (.str "11111111111"),
          admission_date := some (.date ⟨2026, 1, 2⟩) } "i94")).profile_updates.lookup
      "most_recent_entry_date" = some (some (.str "2026-01-02")) ∧
    (validate_mapping_data (map_extracted_data
        { i94_number := some (.str "11111111111"),
          admission_date := some (.date ⟨2026, 1, 2⟩) } "i94")).document_metadata.lookup
      "document_type" = none ∧
    update_profile_from_document
        { most_recent_i94_number := some (.str "22222222222"),
          most_recent_entry_date := some (.date ⟨2020, 1, 1⟩) }
        (validate_mapping_data (map_extracted_data
          { i94_number := some (.str "11111111111"),
            admission_date := some (.date ⟨2026, 1, 2⟩) } "i94")).profile_updates
        (validate_mapping_data (map_extracted_data
          { i94_number := some (.str "11111111111"),
            admission_date := some (.date ⟨2026, 1, 2⟩) } "i94")) =
      { most_recent_i94_number := some (.str "22222222222"),
        most_recent_entry_date := some (.date ⟨2020, 1, 1⟩) } := by
  refine ⟨by decide, by decide, by decide, by decide⟩

/-- C6: date extraction near a keyword.  Numeric `MM/DD/YYYY` and
`MMM DD, YYYY` forms parse as claimed, with 2-digit years pivoting at 30
(`29` → 2029, `30` → 1930), but a `DD MMM YYYY` form such as
`"15 JAN 23"` after `"issued"` yields no date at all: the `DD MMM YYYY`
match reaches `_parse_date_match`'s numeric branch (its first group is
numeric), where `int('JAN')` raises, the bare `except` swallows the
error, and no other pattern matches. -/
theorem C6_date_parsing :
    extract_date (ofStr "issued 15 JAN 23") ["issued"] = none ∧
    extract_date (ofStr "issued JAN 05, 1998") ["issued"] =
      some ⟨1998, 1, 5⟩ ∧
    extract_date (ofStr "issued 03/15/2024") ["issued"] = some ⟨2024, 3, 15⟩ ∧
    extract_date (ofStr "issued 03-15-2024") ["issued"] = some ⟨2024, 3, 15⟩ ∧
    extract_date (ofStr "issued 01/02/29") ["issued"] = some ⟨2029, 1, 2⟩ ∧
    extract_date (ofStr "issued 01/02/30") ["issued"] = some ⟨1930, 1, 2⟩ := by
  refine ⟨by decide, by decide, by decide, by decide, by decide, by decide⟩

/-- C9: the end-to-end I-797 scenario.  On the synthetic text the
classifier scores `i797` highest, and structured extraction fills the
receipt number, notice type and validity dates with no warnings. -/
theorem C9_i797_end_to_end :
    detect_document_type (ofStr "Receipt Number: WAC1234567890\nNotice of Approval\nValid from: 03/01/2024\nValid to: 02/28/2027") = some "i797" ∧
    (extract_structured_data
        (ofStr "Receipt Number: WAC1234567890\nNotice of Approval\nValid from: 03/01/2024\nValid to: 02/28/2027")
        (detect_document_type (ofStr "Receipt Number: WAC1234567890\nNotice of Approval\nValid from: 03/01/2024\nValid to: 02/28/2027"))) =
      { document_type := some (.str "i797"),
        document_number := some (.str "WAC1234567890"),
        receipt_number := some (.str "WAC1234567890"),
        notice_type := some (.str "APPROVAL"),
        validity_from := some (.date ⟨2024, 3, 1⟩),
        validity_to := some (.date ⟨2027, 2, 28⟩) } := by
  refine ⟨by decide, by decide⟩

theorem foldl_add_if {α : Type} (P : α → Bool) (k : Nat) (l : List α) (init : Nat) :
    l.foldl (fun sc x => if P x then sc + k else sc) init = init + k * l.countP P := by
  induction l generalizing init with
  | nil => simp
  | cons a t ih =>
    by_cases h : P a
    · simp only [List.foldl, h, if_true, List.countP_cons, h, ih]
      ring
    · simp only [List.foldl, h, if_false, List.countP_cons, ih]
      simp [h]

theorem scoreOf_eq_tierScore (tl : List Char) (kd : KwEntry) :
    scoreOf tl kd = tierScore tl kd := by
  simp only [scoreOf, tierScore, foldl_add_if]
  ring

theorem pickMax_cons (p a : String × Nat) (t : List (String × Nat)) :
    pickMax p (a :: t) = pickMax (if a.2 > p.2 then a else p) t := rfl

theorem pickMax_mem (l : List (String × Nat)) : ∀ p, pickMax p l ∈ p :: l := by
  induction l with
  | nil => intro p; simp [pickMax]
  | cons a t ih =>
    intro p
    rw [pickMax_cons]
    by_cases hc : a.2 > p.2
    · rw [if_pos hc]
      rcases List.mem_cons.mp (ih a) with h | h <;> simp [h]
    · rw [if_neg hc]
      rcases List.mem_cons.mp (ih p) with h | h <;> simp [h]

theorem pickMax_ge (l : List (String × Nat)) :
    ∀ p q, q ∈ p :: l → q.2 ≤ (pickMax p l).2 := by
  induction l with
  | nil =>
    intro p q hq
    simp only [List.mem_cons, List.not_mem_nil, or_false] at hq
    simp [pickMax, hq]
  | cons a t ih =>
    intro p q hq
    rw [pickMax_cons]
    have hh := ih (if a.2 > p.2 then a else p)
    rcases List.mem_cons.mp hq with rfl | hq'
    · have h1 : q.2 ≤ (if a.2 > q.2 then a else q).2 := by
        split_ifs with h
        · omega
        · omega
      have h2 := hh _ (List.mem_cons_self _ _)
      omega
    · rcases List.mem_cons.mp hq' with rfl | hq''
      · have h1 : q.2 ≤ (if q.2 > p.2 then q else p).2 := by
          split_ifs with h
          · omega
          · omega
        have h2 := hh _ (List.mem_cons_self _ _)
        omega
      · exact hh _ (List.mem_cons_of_mem _ hq'')

/-- C5 counterexample: on the text `"WAC1234567890"` the spec's
case-insensitive reading classifies `i797` (the receipt-shape pattern
matches 15 points), but the code searches its patterns against the
lowercased text without `re.IGNORECASE`, so `[A-Z]{3}[0-9]{10}` never
matches and the classifier returns unknown. -/
theorem C5_classifier_counterexample :
    detect_document_type (ofStr "WAC1234567890") = none ∧
    spec_detect_document_type (ofStr "WAC1234567890") = some "i797" :=
  ⟨by decide, by decide⟩

/-- C5 (amended): the classifier sums 10 per matching high-priority
phrase, 5 per medium-priority phrase and 15 per matching regex pattern —
the patterns matched case-sensitively against the lowercased text, so a
pattern requiring uppercase letters never matches — and returns a type of
maximal positive total score (the earliest such type in table order); if
no type scores above zero it returns `"other"` when the unrelated-content
keywords match at least 3 times and unknown (`None`) otherwise. -/
theorem C5_classifier_amended (text : List Char) :
    ((∀ kd ∈ documentKeywords, tierScore (lowerL text) kd = 0) →
      detect_document_type text =
        (if 3 ≤ nonImmigrationKeywords.countP
            (fun w => isSubstr (ofStr w) (lowerL text)) then some "other" else none)) ∧
    ((∃ kd ∈ documentKeywords, 0 < tierScore (lowerL text) kd) →
      ∃ kd ∈ documentKeywords, detect_document_type text = some kd.name ∧
        0 < tierScore (lowerL text) kd ∧
        ∀ kd' ∈ documentKeywords,
          tierScore (lowerL text) kd' ≤ tierScore (lowerL text) kd) := by
  constructor
  · intro hall
    have hf : ((documentKeywords.map
        (fun kd => (kd.name, scoreOf (lowerL text) kd))).filter
        (fun p => 0 < p.2)) = [] := by
      rw [List.filter_eq_nil_iff]
      intro a ha
      obtain ⟨kd, hkd, rfl⟩ := List.mem_map.mp ha
      simp [scoreOf_eq_tierScore, hall kd hkd]
    simp only [detect_document_type, hf]
  · rintro ⟨kd0, hkd0, hpos⟩
    have hmem : (kd0.name, scoreOf (lowerL text) kd0) ∈
        ((documentKeywords.map (fun kd => (kd.name, scoreOf (lowerL text) kd))).filter
          (fun p => 0 < p.2)) := by
      refine List.mem_filter.mpr ⟨List.mem_map_of_mem _ hkd0, ?_⟩
      simp [scoreOf_eq_tierScore, hpos]
    cases hsc : ((documentKeywords.map
        (fun kd => (kd.name, scoreOf (lowerL text) kd))).filter
        (fun p => 0 < p.2)) with
    | nil => rw [hsc] at hmem; cases hmem
    | cons p rest =>
      have hdet : detect_document_type text = some (pickMax p rest).1 := by
        simp only [detect_document_type, hsc]
      have hmm : pickMax p rest ∈ p :: rest := pickMax_mem rest p
      rw [← hsc] at hmm
      obtain ⟨hmap, hposmax⟩ := List.mem_filter.mp hmm
      obtain ⟨kd1, hkd1, heq⟩ := List.mem_map.mp hmap
      refine ⟨kd1, hkd1, ?_, ?_, ?_⟩
      · rw [hdet, ← heq]
      · have : 0 < (pickMax p rest).2 := by simpa using hposmax
        rw [← heq] at this
        simpa [scoreOf_eq_tierScore] using this
      · intro kd' hkd'
        by_cases h' : 0 < tierScore (lowerL text) kd'
        · have hmem' : (kd'.name, scoreOf (lowerL text) kd') ∈
              ((documentKeywords.map
                (fun kd => (kd.name, scoreOf (lowerL text) kd))).filter
                (fun q => 0 < q.2)) := by
            refine List.mem_filter.mpr ⟨List.mem_map_of_mem _ hkd', ?_⟩
            simp [scoreOf_eq_tierScore, h']
          rw [hsc] at hmem'
          have hle := pickMax_ge rest p _ hmem'
          rw [← heq] at hle
          simpa [scoreOf_eq_tierScore] using hle
        · have : tierScore (lowerL text) kd' = 0 := by omega
          omega

/-- Witness for C5 at a concrete text with a positive score. -/
theorem C5_classifier_amended_witness :
    ∃ kd ∈ documentKeywords,
      detect_document_type (ofStr "receipt number") = some kd.name ∧
      0 < tierScore (lowerL (ofStr "receipt number")) kd ∧
      ∀ kd' ∈ documentKeywords,
        tierScore (lowerL (ofStr "receipt number")) kd' ≤
          tierScore (lowerL (ofStr "receipt number")) kd :=
  (C5_classifier_amended (ofStr "receipt number")).2 (by decide)

/-- C7 counterexample: a visa record with `visa_type = "H1B"` is mapped
to `related_immigration_type = "H1-B"`, not the `"H-1B"` the claim
states (the source's alias table sends both `"H1B"` and `"H-1B"` to
`"H1-B"`). -/
theorem C7_visa_alias_counterexample :
    (map_extracted_data { visa_type := some (.str "H1B") }
        "visa").document_metadata.lookup "related_immigration_type" =
      some (some (.str "H1-B")) ∧
    (map_extracted_data { visa_type := some (.str "H1B") }
        "visa").document_metadata.lookup "related_immigration_type" ≠
      some (some (.str "H-1B")) :=
  ⟨by decide, by decide⟩

/-- C7 (amended): for a visa document whose extracted `visa_type` upper-
cases to `"H1B"` or `"H-1B"`, the mapper normalises it via the alias
table so that the mapped `related_immigration_type` equals `"H1-B"`. -/
theorem C7_visa_alias_amended (e : ExtractedData) (s : String)
    (hv : e.visa_type = some (.str s))
    (hs : upperS s = "H1B" ∨ upperS s = "H-1B") :
    (map_extracted_data e "visa").document_metadata.lookup
      "related_immigration_type" = some (some (.str "H1-B")) := by
  have hm : mappings.lookup "visa" = some {
      document_metadata_fields := [("document_number", "control_number"),
        ("document_subtype", "visa_type"), ("issuing_authority", "issuing_authority"),
        ("issue_date", "issue_date"), ("expiry_date", "expiry_date"),
        ("related_immigration_type", "visa_class")],
      profile_update_fields := [("visa_expiry_date", "expiry_date")] } := rfl
  obtain ⟨l⟩ := s
  cases l with
  | nil =>
    rcases hs with h | h
    · exact absurd h (by decide)
    · exact absurd h (by decide)
  | cons c t =>
    have hne : strIsEmpty (String.mk (c :: t)) = false := rfl
    simp only [map_extracted_data, hm]
    simp only [apply_document_specific_logic, hv, hne]
    rcases hs with h | h <;>
      simp [h, show visaMapping.lookup "H1B" = some "H1-B" from rfl,
        show visaMapping.lookup "H-1B" = some "H1-B" from rfl, lookup_dinsert]

/-- Witness for C7 at a concrete lowercase alias. -/
theorem C7_visa_alias_amended_witness :
    (map_extracted_data { visa_type := some (.str "h-1b") }
        "visa").document_metadata.lookup "related_immigration_type" =
      some (some (.str "H1-B")) :=
  C7_visa_alias_amended { visa_type := some (.str "h-1b") } "h-1b" rfl
    (Or.inr (by decide))

/-- C8 counterexample: an AI-call failure yields no warning.  With AI
enabled on an image, a vision-call failure (e.g. a timeout) is swallowed
inside the vision helpers, which return an empty record; the merge is
silent, so the result carries zero warnings — refuting the claim that
every internal-stage failure leaves at least one warning describing it.
The result is exactly the base result merged with an empty record. -/
theorem C8_ai_failure_counterexample :
    (extract_with_ai true "image/png" { } (.error "timeout") (.ok true)).warnings
      = [] ∧
    extract_with_ai true "image/png" { extracted_text := some "BASE TEXT" }
        (.error "timeout") (.ok true) =
      merge_results { extracted_text := some "BASE TEXT" } { } :=
  ⟨by decide, by decide⟩

/-- C8 (amended): the extraction entry points never let an exception
escape, with every external stage modelled as an oracle that may raise.
`extract_from_file` always returns a record, and an unsupported file
type, an image decode/OCR failure or a PDF rasterise/OCR failure each
leave an `Extraction error:` warning describing the failure.
`extract_with_ai` returns the base result unchanged when AI is
unavailable; an AI vision-call failure is swallowed inside the vision
helpers, so the result is the base result merged with an empty record
and **no** warning is added; only a failure of the PDF first-page
rasterisation step reaches the outer handler and appends an
`AI extraction failed:` warning to the base result. -/
theorem C8_error_handling_amended :
    (∀ (fileType : String) (ocr : Except String String)
        (pages : List (Except String String)) (pocr : Except String String)
        (hint : Option String),
      lowerS fileType ∉ imageFileTypes →
      lowerS fileType ≠ "application/pdf" →
      extract_from_file fileType ocr pages pocr hint =
        { warnings := ["Extraction error: " ++ ("Unsupported file type: " ++ fileType)] }) ∧
    (∀ (fileType : String) (m : String)
        (pages : List (Except String String)) (pocr : Except String String)
        (hint : Option String),
      lowerS fileType ∈ imageFileTypes →
      extract_from_file fileType (.error m) pages pocr hint =
        { warnings := ["Extraction error: " ++ m] }) ∧
    (∀ (fileType : String) (ocr : Except String String)
        (pages : List (Except String String)) (m : String) (hint : Option String),
      lowerS fileType ∉ imageFileTypes →
      lowerS fileType = "application/pdf" →
      (pyStrip (ofStr (pdfCollect pages))).length < 100 →
      extract_from_file fileType ocr pages (.error m) hint =
        { warnings := ["Extraction error: " ++ m] }) ∧
    (∀ (fileType : String) (base : ExtractedData)
        (aiCall : Except String AiJson) (pdfc : Except String Bool),
      extract_with_ai false fileType base aiCall pdfc = base) ∧
    (∀ (fileType : String) (base : ExtractedData) (m : String)
        (pdfc : Except String Bool),
      lowerS fileType ∈ visionFileTypes →
      extract_with_ai true fileType base (.error m) pdfc =
        merge_results base { }) ∧
    (∀ (fileType : String) (base : ExtractedData)
        (aiCall : Except String AiJson) (m : String),
      lowerS fileType ∉ visionFileTypes →
      lowerS fileType = "application/pdf" →
      extract_with_ai true fileType base aiCall (.error m) =
        { base with warnings := base.warnings ++ ["AI extraction failed: " ++ m] }) := by
  refine ⟨?_, ?_, ?_, ?_, ?_, ?_⟩
  · intro fileType ocr pages pocr hint h1 h2
    simp [extract_from_file, h1, h2]
  · intro fileType m pages pocr hint h1
    simp [extract_from_file, extract_from_image, h1]
  · intro fileType ocr pages m hint h1 h2 h3
    simp [extract_from_file, extract_from_pdf, h1, h2, h3, imageFileTypes]
  · intro fileType base aiCall pdfc
    simp [extract_with_ai]
  · intro fileType base m pdfc h1
    simp [extract_with_ai, extract_with_vision, h1]
  · intro fileType base aiCall m h1 h2
    simp [extract_with_ai, h1, h2, visionFileTypes]

/-- Witness for C8 (amended): an unsupported type, a failing OCR call, a
silently-swallowed vision failure, and a failing PDF rasterisation at
concrete inputs. -/
theorem C8_error_handling_amended_witness :
    extract_from_file "text/plain" (.ok "x") [] (.ok "y") none =
      { warnings := ["Extraction error: " ++ ("Unsupported file type: " ++ "text/plain")] } ∧
    extract_from_file "image/png" (.error "OCR crashed") [] (.ok "y") none =
      { warnings := ["Extraction error: " ++ "OCR crashed"] } ∧
    extract_with_ai true "image/jpeg" { } (.error "timeout") (.ok true) =
      merge_results { } { } ∧
    extract_with_ai true "application/pdf" { } (.ok { }) (.error "no poppler") =
      { warnings := [] ++ ["AI extraction failed: " ++ "no poppler"] } :=
  ⟨C8_error_handling_amended.1 "text/plain" (.ok "x") [] (.ok "y") none
      (by decide) (by decide),
   C8_error_handling_amended.2.1 "image/png" "OCR crashed" [] (.ok "y") none
      (by decide),
   C8_error_handling_amended.2.2.2.2.1 "image/jpeg" { } "timeout" (.ok true)
      (by decide),
   C8_error_handling_amended.2.2.2.2.2 "application/pdf" { } (.ok { })
      "no poppler" (by decide) (by decide)⟩

theorem noKey_nil (k : String) : noKey k [] := by
  intro fv h
  cases h

theorem noKey_dinsert {k k' : String} (hne : k' ≠ k) (v : Option PyVal)
    {l : List (String × Option PyVal)} (h : noKey k l) :
    noKey k (dinsert k' v l) := by
  induction l with
  | nil =>
    intro fv hfv
    simp [dinsert] at hfv
    simp [hfv, hne]
  | cons a t ih =>
    intro fv hfv
    simp only [dinsert] at hfv
    split_ifs at hfv with hk
    · rcases List.mem_cons.mp hfv with rfl | hfv'
      · exact hne
      · exact h fv (List.mem_cons_of_mem _ hfv')
    · rcases List.mem_cons.mp hfv with rfl | hfv'
      · exact h a (List.mem_cons_self _ _)
      · exact ih (fun x hx => h x (List.mem_cons_of_mem _ hx)) fv hfv'

theorem lookup_eq_none_of_noKey {k : String} {l : List (String × Option PyVal)}
    (h : noKey k l) : l.lookup k = none := by
  induction l with
  | nil => rfl
  | cons a t ih =>
    obtain ⟨k1, v1⟩ := a
    have h1 : k1 ≠ k := h (k1, v1) (List.mem_cons_self _ _)
    have hb : (k == k1) = false := beq_eq_false_iff_ne.mpr (Ne.symm h1)
    simp only [List.lookup, hb]
    exact ih (fun x hx => h x (List.mem_cons_of_mem _ hx))

theorem mapMetaStep_noKey {k : String} (e : ExtractedData) (res : MappingResult)
    (fields : String × String) (hne : fields.1 ≠ k)
    (h : noKey k res.document_metadata) :
    noKey k (mapMetaStep e res fields).document_metadata := by
  unfold mapMetaStep
  repeat' split
  all_goals first
    | exact h
    | exact noKey_dinsert hne _ h

theorem genericMapStep_noKey {k : String} (e : ExtractedData) (res : MappingResult)
    (fields : String × String) (hne : fields.1 ≠ k)
    (h : noKey k res.document_metadata) :
    noKey k (genericMapStep e res fields).document_metadata := by
  unfold genericMapStep
  repeat' split
  all_goals first
    | exact h
    | exact noKey_dinsert hne _ h

theorem foldl_mapMetaStep_noKey {k : String} (e : ExtractedData)
    (fs : List (String × String)) :
    ∀ res : MappingResult, (∀ f ∈ fs, f.1 ≠ k) → noKey k res.document_metadata →
    noKey k (fs.foldl (mapMetaStep e) res).document_metadata := by
  induction fs with
  | nil => intro res _ h; exact h
  | cons a t ih =>
    intro res hall h
    exact ih _ (fun f hf => hall f (List.mem_cons_of_mem _ hf))
      (mapMetaStep_noKey e res a (hall a (List.mem_cons_self _ _)) h)

theorem foldl_genericMapStep_noKey {k : String} (e : ExtractedData)
    (fs : List (String × String)) :
    ∀ res : MappingResult, (∀ f ∈ fs, f.1 ≠ k) → noKey k res.document_metadata →
    noKey k (fs.foldl (genericMapStep e) res).document_metadata := by
  induction fs with
  | nil => intro res _ h; exact h
  | cons a t ih =>
    intro res hall h
    exact ih _ (fun f hf => hall f (List.mem_cons_of_mem _ hf))
      (genericMapStep_noKey e res a (hall a (List.mem_cons_self _ _)) h)

theorem mapProfileStep_meta (e : ExtractedData) (res : MappingResult)
    (fields : String × String) :
    (mapProfileStep e res fields).document_metadata = res.document_metadata := by
  unfold mapProfileStep
  repeat' split
  all_goals rfl

theorem foldl_mapProfileStep_meta (e : ExtractedData) (fs : List (String × String)) :
    ∀ res : MappingResult,
    (fs.foldl (mapProfileStep e) res).document_metadata = res.document_metadata := by
  induction fs with
  | nil => intro res; rfl
  | cons a t ih =>
    intro res
    rw [List.foldl_cons, ih, mapProfileStep_meta]

theorem apply_logic_noKey {k : String} (res : MappingResult) (e : ExtractedData)
    (dt : String) (hk : k ≠ "related_immigration_type")
    (h : noKey k res.document_metadata) :
    noKey k (apply_document_specific_logic res e dt).document_metadata := by
  unfold apply_document_specific_logic
  repeat' split
  all_goals first
    | exact h
    | exact noKey_dinsert (Ne.symm hk) _ h

theorem validateStep_fst_mem (acc : List (String × Option PyVal) × List String)
    (a fv : String × Option PyVal) (h : fv ∈ (validateStep acc a).1) :
    fv ∈ acc.1 ∨ fv = a := by
  unfold validateStep at h
  repeat' split at h
  all_goals first
    | exact Or.inl h
    | exact (List.mem_append.mp h).elim Or.inl
        (fun h1 => Or.inr (List.mem_singleton.mp h1))

theorem validateGroup_fst_mem (l : List (String × Option PyVal)) :
    ∀ fv ∈ (validateGroup l).1, fv ∈ l := by
  unfold validateGroup
  suffices h : ∀ (acc : List (String × Option PyVal) × List String) fv,
      fv ∈ (l.foldl validateStep acc).1 → fv ∈ acc.1 ∨ fv ∈ l by
    intro fv hfv
    rcases h ([], []) fv hfv with h' | h'
    · cases h'
    · exact h'
  induction l with
  | nil => intro acc fv hfv; exact Or.inl hfv
  | cons a t ih =>
    intro acc fv hfv
    rcases ih (validateStep acc a) fv hfv with h' | h'
    · rcases validateStep_fst_mem acc a fv h' with h'' | h''
      · exact Or.inl h''
      · exact Or.inr (h'' ▸ List.mem_cons_self _ _)
    · exact Or.inr (List.mem_cons_of_mem _ h')

theorem validateGroup_noKey {k : String} {l : List (String × Option PyVal)}
    (h : noKey k l) : noKey k (validateGroup l).1 :=
  fun fv hfv => h fv (validateGroup_fst_mem l fv hfv)

theorem validate_noKey {k : String} (m : MappingResult)
    (h : noKey k m.document_metadata) :
    noKey k (validate_mapping_data m).document_metadata := by
  have hdm : noKey k (validateGroup m.document_metadata).1 := validateGroup_noKey h
  simp only [validate_mapping_data]
  split
  · split_ifs
    · exact fun fv hfv => hdm fv (List.mem_of_mem_filter hfv)
    · exact hdm
  · exact fun fv hfv => hdm fv (List.mem_of_mem_filter hfv)
  · exact hdm

theorem lookup_some_mem {α β : Type} [BEq α] [LawfulBEq α]
    (l : List (α × β)) (a : α) (b : β) (h : l.lookup a = some b) : (a, b) ∈ l := by
  induction l with
  | nil => simp [List.lookup] at h
  | cons p t ih =>
    obtain ⟨k, v⟩ := p
    by_cases hbe : a == k
    · simp only [List.lookup, hbe] at h
      cases h
      exact (eq_of_beq hbe) ▸ List.mem_cons_self _ _
    · simp only [List.lookup, Bool.not_eq_true] at h
      rw [Bool.eq_false_iff.mpr hbe] at h
      exact List.mem_cons_of_mem _ (ih h)

/-- The mapper never writes a `document_type` key into
`document_metadata`, for any extracted record and any document type. -/
theorem mapper_no_document_type (e : ExtractedData) (dt : String) :
    (validate_mapping_data (map_extracted_data e dt)).document_metadata.lookup
      "document_type" = none := by
  apply lookup_eq_none_of_noKey
  apply validate_noKey
  unfold map_extracted_data
  cases hl : mappings.lookup dt with
  | none =>
    unfold create_generic_mapping
    apply foldl_genericMapStep_noKey
    · decide
    · exact noKey_nil _
  | some mp =>
    have hkeys : ∀ f ∈ mp.document_metadata_fields, f.1 ≠ "document_type" := by
      have hmem := lookup_some_mem _ _ _ hl
      simp only [mappings, List.mem_cons, List.not_mem_nil, or_false,
        Prod.mk.injEq] at hmem
      rcases hmem with ⟨-, rfl⟩ | ⟨-, rfl⟩ | ⟨-, rfl⟩ | ⟨-, rfl⟩ | ⟨-, rfl⟩ |
        ⟨-, rfl⟩ | ⟨-, rfl⟩ <;> decide
    have h1 : noKey "document_type"
        ((mp.document_metadata_fields.foldl (mapMetaStep e)
          { }).document_metadata) :=
      foldl_mapMetaStep_noKey e _ _ hkeys (noKey_nil _)
    have h2 : noKey "document_type"
        ((mp.profile_update_fields.foldl (mapProfileStep e)
          (mp.document_metadata_fields.foldl (mapMetaStep e)
            { })).document_metadata) := by
      rw [foldl_mapProfileStep_meta]
      exact h1
    apply apply_logic_noKey _ _ _ (by decide)
    split
    · exact h2
    · exact h2


theorem getProf_setProf_ne {f field : String} (hne : f ≠ field)
    (v : Option PyVal) (q : Profile) :
    getProf f (setProf field v q) = getProf f q := by
  by_cases hmem : field ∈ profileFields
  · simp only [profileFields, List.mem_cons, List.not_mem_nil, or_false] at hmem
    rcases hmem with rfl | rfl | rfl | rfl | rfl | rfl | rfl | rfl <;>
      simp [setProf, getProf, hne]
  · simp only [profileFields, List.mem_cons, List.not_mem_nil, or_false,
      not_or] at hmem
    obtain ⟨h1, h2, h3, h4, h5, h6, h7, h8⟩ := hmem
    unfold setProf
    rw [if_neg h1, if_neg h2, if_neg h3, if_neg h4, if_neg h5, if_neg h6,
      if_neg h7, if_neg h8]

theorem getProf_setProf_self {field : String} (hmem : field ∈ profileFields)
    (v : Option PyVal) (q : Profile) :
    getProf field (setProf field v q) = v := by
  simp only [profileFields, List.mem_cons, List.not_mem_nil, or_false] at hmem
  rcases hmem with rfl | rfl | rfl | rfl | rfl | rfl | rfl | rfl <;>
    simp [getProf, setProf]

theorem write_preserves {q : Profile} {field f : String} {v : Option PyVal}
    (hmem : field ∈ profileFields) (hf : getProf f q ≠ none) (hv : v ≠ none) :
    getProf f (setProf field v q) ≠ none := by
  by_cases hef : f = field
  · subst hef
    rw [getProf_setProf_self hmem]
    exact hv
  · rw [getProf_setProf_ne hef]
    exact hf

/-- The per-field reconciler step never clears a set profile field,
provided the `document_type` metadata string does not contain `"i94"`
(which `mapper_no_document_type` shows holds of every mapper output). -/
theorem updateProfileField_preserves (validated : MappingResult)
    (hdoc : isSubstr (ofStr "i94") (ofStr (metaDocTypeStr validated)) = false)
    (q : Profile) (field : String) (v : Option PyVal) (f : String)
    (hf : getProf f q ≠ none) :
    getProf f (updateProfileField validated q field v) ≠ none := by
  cases v with
  | none => exact hf
  | some v0 =>
    by_cases hmem : field ∈ profileFields
    · have hc : profileFields.contains field = true := by simpa using hmem
      have hwrite : ∀ w : Option PyVal, w ≠ none → ∀ su : Bool,
          getProf f (if su = true then setProf field w q else q) ≠ none := by
        intro w hw su
        cases su with
        | false => simpa using hf
        | true => simpa using write_preserves hmem hf hw
      cases v0 with
      | date d =>
        simp only [updateProfileField, hc, eq_self_iff_true, if_true]
        exact hwrite (some (.date d)) (by simp) _
      | str s =>
        by_cases hsub : isSubstr (ofStr "date") (ofStr (lowerS field)) = true
        · cases hpd : parse_date_field s with
          | some d =>
            simp only [updateProfileField, hc, eq_self_iff_true, if_true, hsub,
              hpd, Option.map_some']
            exact hwrite (some (.date d)) (by simp) _
          | none =>
            by_cases hef : f = field
            · subst hef
              have hn1 : f ≠ "passport_number" := by
                rintro rfl
                exact absurd hsub (by decide)
              have hn2 : f ≠ "alien_registration_number" := by
                rintro rfl
                exact absurd hsub (by decide)
              simp only [updateProfileField, hc, eq_self_iff_true, if_true,
                hsub, hpd, Option.map_none']
              simp [hf, hdoc, hn1, hn2]
            · have hsame : ∀ su : Bool,
                  getProf f (if su = true then setProf field none q else q) =
                    getProf f q := by
                intro su
                cases su with
                | false => simp
                | true => simpa using getProf_setProf_ne hef none q
              simp only [updateProfileField, hc, eq_self_iff_true, if_true,
                hsub, hpd, Option.map_none']
              rw [hsame]
              exact hf
        · simp only [Bool.not_eq_true] at hsub
          simp only [updateProfileField, hc, eq_self_iff_true, if_true, hsub,
            Bool.false_eq_true, if_false]
          exact hwrite (some (.str s)) (by simp) _
    · have hc : profileFields.contains field = false := by simpa using hmem
      simp only [updateProfileField, hc, Bool.false_eq_true, if_false]
      exact hf

theorem update_profile_preserves (validated : MappingResult)
    (hdoc : isSubstr (ofStr "i94") (ofStr (metaDocTypeStr validated)) = false)
    (updates : List (String × Option PyVal)) :
    ∀ (p : Profile) (f : String), getProf f p ≠ none →
    getProf f (update_profile_from_document p updates validated) ≠ none := by
  induction updates with
  | nil => intro p f hf; exact hf
  | cons kv t ih =>
    intro p f hf
    exact ih _ _ (updateProfileField_preserves validated hdoc p kv.1 kv.2 f hf)

/-- C10: the reconciler skips every `profile_updates` entry whose value is
`None`; over any mapper-produced update set it never clears a set profile
field; and in particular the I-94 Duration-of-Status rule (which maps
`authorized_stay_until` to `None`) leaves a previously stored
`authorized_stay_until` value unchanged. -/
theorem C10_reconciler_never_clears :
    (∀ (validated : MappingResult) (q : Profile) (field : String),
      updateProfileField validated q field none = q) ∧
    (∀ (e : ExtractedData) (dt : String) (p : Profile) (f : String),
      getProf f p ≠ none →
      getProf f (update_profile_from_document p
        (validate_mapping_data (map_extracted_data e dt)).profile_updates
        (validate_mapping_data (map_extracted_data e dt))) ≠ none) ∧
    (update_profile_from_document
        { authorized_stay_until := some (.date ⟨2030, 1, 1⟩) }
        (validate_mapping_data (map_extracted_data
          { admit_until_date := some (.str "D/S") } "i94")).profile_updates
        (validate_mapping_data (map_extracted_data
          { admit_until_date := some (.str "D/S") } "i94")) =
      { authorized_stay_until := some (.date ⟨2030, 1, 1⟩) }) := by
  refine ⟨fun _ _ _ => rfl, ?_, by decide⟩
  intro e dt p f hf
  have hdoc : isSubstr (ofStr "i94") (ofStr (metaDocTypeStr
      (validate_mapping_data (map_extracted_data e dt)))) = false := by
    unfold metaDocTypeStr
    rw [mapper_no_document_type]
    decide
  exact update_profile_preserves _ hdoc _ p f hf

/-- Witness for C10: a set `most_recent_i94_number` stays set across a
concrete mapped update list. -/
theorem C10_reconciler_never_clears_witness :
    getProf "most_recent_i94_number"
      (update_profile_from_document
        { most_recent_i94_number := some (.str "22222222222") }
        (validate_mapping_data (map_extracted_data
          { i94_number := some (.str "11111111111") } "i94")).profile_updates
        (validate_mapping_data (map_extracted_data
          { i94_number := some (.str "11111111111") } "i94"))) ≠ none :=
  C10_reconciler_never_clears.2.1 { i94_number := some (.str "11111111111") }
    "i94" { most_recent_i94_number := some (.str "22222222222") }
    "most_recent_i94_number" (by decide)
